import Mathlib

set_option autoImplicit false

/-!
Verification of `mysql-connector-python-async` against its natural-language
specification.  The definitions below are shallow embeddings of the code in
`src/mysql_async/connector/` (network.py, connection.py, protocol.py,
pooling.py).  Bytes are modelled as `Nat` (values 0..255), byte strings as
`List Nat`, and fallible Python code as `Option`/`Except`.
-/

namespace MySQLAsync

/-- `constants.MAX_PACKET_LENGTH` from the upstream constants module:
the maximum payload length of a single MySQL wire packet,
`16 * 1024 * 1024 - 1` (16MB - 1). -/
def MAX_PACKET_LENGTH : Nat := 16 * 1024 * 1024 - 1

/-- Model of Python `struct.pack('<B', n)`: packs `n` into one byte,
raising `struct.error` (modelled as `none`) when `n` does not fit. -/
def packB (n : Nat) : Option Nat :=
  if n ≤ 255 then some n else none

/-- One wire packet as produced by `_prepare_packets` in
`mysql_async/connector/network.py`: a 3-byte little-endian length header
(stored by value), a 1-byte sequence number, and the payload slice.
`b'\xff\xff\xff'` corresponds to `lenField = MAX_PACKET_LENGTH`. -/
structure RawPacket where
  lenField : Nat
  seq : Nat
  payload : List Nat
deriving Repr, DecidableEq

/-- `_prepare_packets(buf, pktnr)` (network.py lines 55-68).  The Python
loop peels `MAX_PACKET_LENGTH`-sized chunks off the front of `buf` while
more than `MAX_PACKET_LENGTH` bytes remain, emitting a `b'\xff\xff\xff'`
length header and the raw (unreduced) packet number for each chunk, then
emits a final packet carrying the remaining bytes.  `struct.pack('<B',
pktnr)` raises once `pktnr` exceeds 255, modelled by `packB`/`none`. -/
def preparePackets (buf : List Nat) (pktnr : Nat) : Option (List RawPacket) :=
  if MAX_PACKET_LENGTH < buf.length then
    match packB pktnr, preparePackets (buf.drop MAX_PACKET_LENGTH) (pktnr + 1) with
    | some b, some rest =>
        some (⟨MAX_PACKET_LENGTH, b, buf.take MAX_PACKET_LENGTH⟩ :: rest)
    | _, _ => none
  else
    match packB pktnr with
    | some b => some [⟨buf.length, b, buf⟩]
    | none => none
termination_by buf.length
decreasing_by
  simp only [List.length_drop]
  have h0 : 0 < MAX_PACKET_LENGTH := by decide
  omega

/-- The number of fragments `_prepare_packets` produces for a buffer:
`⌈len/MAX⌉`, except that the empty buffer still yields one (empty)
packet. -/
def numFragments (buf : List Nat) : Nat :=
  (buf.length - 1) / MAX_PACKET_LENGTH + 1

theorem numFragments_pos (buf : List Nat) : 0 < numFragments buf :=
  Nat.succ_pos _

theorem numFragments_drop (buf : List Nat)
    (h : MAX_PACKET_LENGTH < buf.length) :
    numFragments buf = numFragments (buf.drop MAX_PACKET_LENGTH) + 1 := by
  have h0 : 0 < MAX_PACKET_LENGTH := by decide
  simp only [numFragments, List.length_drop]
  have h1 : MAX_PACKET_LENGTH ≤ buf.length - 1 := by omega
  rw [Nat.div_eq_sub_div h0 h1, Nat.sub_right_comm]

/-- On success `_prepare_packets` always returns at least one packet. -/
theorem preparePackets_ne_nil (buf : List Nat) (n : Nat)
    (pkts : List RawPacket) (h : preparePackets buf n = some pkts) :
    pkts ≠ [] := by
  rw [preparePackets] at h
  by_cases hgt : MAX_PACKET_LENGTH < buf.length <;> simp only [hgt, if_true, if_false] at h
  · rcases hb : packB n with _ | b <;> rw [hb] at h
    · simp at h
    · rcases hr : preparePackets (buf.drop MAX_PACKET_LENGTH) (n + 1) with _ | rest <;>
        rw [hr] at h <;> simp only [Option.some.injEq] at h
      · exact absurd h (by simp)
      · rw [← h]; simp
  · rcases hb : packB n with _ | b <;> rw [hb] at h <;>
      simp only [Option.some.injEq] at h
    · exact absurd h (by simp)
    · rw [← h]; simp

/-- Concatenating the payloads of the produced fragments recovers the
original buffer. -/
theorem preparePackets_join (buf : List Nat) (n : Nat)
    (pkts : List RawPacket) (h : preparePackets buf n = some pkts) :
    (pkts.map RawPacket.payload).flatten = buf := by
  rw [preparePackets] at h
  by_cases hgt : MAX_PACKET_LENGTH < buf.length <;> simp only [hgt, if_true, if_false] at h
  · rcases hb : packB n with _ | b <;> rw [hb] at h
    · simp at h
    · rcases hr : preparePackets (buf.drop MAX_PACKET_LENGTH) (n + 1) with _ | rest <;>
        rw [hr] at h <;> simp only [Option.some.injEq] at h
      · exact absurd h (by simp)
      · have ih := preparePackets_join (buf.drop MAX_PACKET_LENGTH) (n + 1) rest hr
        rw [← h]
        simp only [List.map_cons, List.flatten_cons, ih, List.take_append_drop]
  · rcases hb : packB n with _ | b <;> rw [hb] at h <;>
      simp only [Option.some.injEq] at h
    · exact absurd h (by simp)
    · rw [← h]; simp
termination_by buf.length
decreasing_by
  simp only [List.length_drop]
  have h0 : 0 < MAX_PACKET_LENGTH := by decide
  omega

theorem packB_eq_some {n b : Nat} (h : packB n = some b) : n ≤ 255 ∧ b = n := by
  unfold packB at h
  by_cases h255 : n ≤ 255 <;> simp [h255] at h
  exact ⟨h255, h.symm⟩

/-- `_prepare_packets` produces exactly `numFragments buf` fragments. -/
theorem preparePackets_length (buf : List Nat) (n : Nat)
    (pkts : List RawPacket) (h : preparePackets buf n = some pkts) :
    pkts.length = numFragments buf := by
  rw [preparePackets] at h
  by_cases hgt : MAX_PACKET_LENGTH < buf.length <;> simp only [hgt, if_true, if_false] at h
  · rcases hb : packB n with _ | b <;> rw [hb] at h
    · simp at h
    · rcases hr : preparePackets (buf.drop MAX_PACKET_LENGTH) (n + 1) with _ | rest <;>
        rw [hr] at h <;> simp only [Option.some.injEq] at h
      · exact absurd h (by simp)
      · have ih := preparePackets_length (buf.drop MAX_PACKET_LENGTH) (n + 1) rest hr
        rw [← h, numFragments_drop buf hgt]
        simp [ih]
  · rcases hb : packB n with _ | b <;> rw [hb] at h <;>
      simp only [Option.some.injEq] at h
    · exact absurd h (by simp)
    · rw [← h]
      have : buf.length - 1 < MAX_PACKET_LENGTH := by
        have h0 : 0 < MAX_PACKET_LENGTH := by decide
        omega
      simp [numFragments, Nat.div_eq_of_lt this]
termination_by buf.length
decreasing_by
  simp only [List.length_drop]
  have h0 : 0 < MAX_PACKET_LENGTH := by decide
  omega

/-- The `k`-th fragment carries the raw (unreduced) sequence byte `n + k`. -/
theorem preparePackets_seq (buf : List Nat) (n : Nat)
    (pkts : List RawPacket) (h : preparePackets buf n = some pkts) :
    ∀ i (hi : i < pkts.length), (pkts.get ⟨i, hi⟩).seq = n + i := by
  rw [preparePackets] at h
  by_cases hgt : MAX_PACKET_LENGTH < buf.length <;> simp only [hgt, if_true, if_false] at h
  · rcases hb : packB n with _ | b <;> rw [hb] at h
    · simp at h
    · rcases hr : preparePackets (buf.drop MAX_PACKET_LENGTH) (n + 1) with _ | rest <;>
        rw [hr] at h <;> simp only [Option.some.injEq] at h
      · exact absurd h (by simp)
      · have ih := preparePackets_seq (buf.drop MAX_PACKET_LENGTH) (n + 1) rest hr
        obtain ⟨-, hbn⟩ := packB_eq_some hb
        subst hbn
        rw [← h]
        intro i hi
        match i with
        | 0 => simp
        | Nat.succ j =>
            have hj : j < rest.length := by simpa using hi
            simpa [Nat.add_assoc, Nat.add_comm 1 j] using ih j hj
  · rcases hb : packB n with _ | b <;> rw [hb] at h <;>
      simp only [Option.some.injEq] at h
    · exact absurd h (by simp)
    · obtain ⟨-, hbn⟩ := packB_eq_some hb
      subst hbn
      rw [← h]
      intro i hi
      have hi0 : i = 0 := by simpa using hi
      subst hi0
      simp
termination_by buf.length
decreasing_by
  simp only [List.length_drop]
  have h0 : 0 < MAX_PACKET_LENGTH := by decide
  omega

/-- Every fragment other than the last carries the maximal length field
(`b'\xff\xff\xff'`). -/
theorem preparePackets_lenField_nonterminal (buf : List Nat) (n : Nat)
    (pkts : List RawPacket) (h : preparePackets buf n = some pkts) :
    ∀ i (hi : i < pkts.length), i + 1 < pkts.length →
      (pkts.get ⟨i, hi⟩).lenField = MAX_PACKET_LENGTH := by
  rw [preparePackets] at h
  by_cases hgt : MAX_PACKET_LENGTH < buf.length <;> simp only [hgt, if_true, if_false] at h
  · rcases hb : packB n with _ | b <;> rw [hb] at h
    · simp at h
    · rcases hr : preparePackets (buf.drop MAX_PACKET_LENGTH) (n + 1) with _ | rest <;>
        rw [hr] at h <;> simp only [Option.some.injEq] at h
      · exact absurd h (by simp)
      · have ih := preparePackets_lenField_nonterminal
          (buf.drop MAX_PACKET_LENGTH) (n + 1) rest hr
        rw [← h]
        intro i hi hlt
        match i with
        | 0 => simp
        | Nat.succ j =>
            have hj : j < rest.length := by simpa using hi
            have hjlt : j + 1 < rest.length := by simpa using hlt
            simpa using ih j hj hjlt
  · rcases hb : packB n with _ | b <;> rw [hb] at h <;>
      simp only [Option.some.injEq] at h
    · exact absurd h (by simp)
    · rw [← h]
      intro i hi hlt
      simp at hlt
termination_by buf.length
decreasing_by
  simp only [List.length_drop]
  have h0 : 0 < MAX_PACKET_LENGTH := by decide
  omega

/-- The last fragment's length field: the remainder `len % MAX`, except
that a nonempty buffer whose length is an exact multiple of `MAX` ends in
a full-length fragment (no empty terminal fragment is produced). -/
theorem preparePackets_lenField_last (buf : List Nat) (n : Nat)
    (pkts : List RawPacket) (h : preparePackets buf n = some pkts)
    (hne : pkts ≠ []) :
    (pkts.getLast hne).lenField =
      if buf.length % MAX_PACKET_LENGTH = 0 ∧ buf.length ≠ 0 then
        MAX_PACKET_LENGTH
      else buf.length % MAX_PACKET_LENGTH := by
  rw [preparePackets] at h
  by_cases hgt : MAX_PACKET_LENGTH < buf.length <;> simp only [hgt, if_true, if_false] at h
  · rcases hb : packB n with _ | b <;> rw [hb] at h
    · simp at h
    · rcases hr : preparePackets (buf.drop MAX_PACKET_LENGTH) (n + 1) with _ | rest <;>
        rw [hr] at h <;> simp only [Option.some.injEq] at h
      · exact absurd h (by simp)
      · have hrne : rest ≠ [] :=
          preparePackets_ne_nil (buf.drop MAX_PACKET_LENGTH) (n + 1) rest hr
        have ih := preparePackets_lenField_last
          (buf.drop MAX_PACKET_LENGTH) (n + 1) rest hr hrne
        have hmod : (buf.drop MAX_PACKET_LENGTH).length % MAX_PACKET_LENGTH
            = buf.length % MAX_PACKET_LENGTH := by
          simp only [List.length_drop]
          exact (Nat.mod_eq_sub_mod (Nat.le_of_lt hgt)).symm
        have hzero : (buf.drop MAX_PACKET_LENGTH).length ≠ 0 := by
          simp only [List.length_drop]
          omega
        subst h
        rw [List.getLast_cons hrne, ih, hmod]
        have h3 : buf.length ≠ 0 := by omega
        have h4 : buf.length - MAX_PACKET_LENGTH ≠ 0 := by
          have h0 : 0 < MAX_PACKET_LENGTH := by decide
          omega
        by_cases hm : buf.length % MAX_PACKET_LENGTH = 0 <;>
          simp [hm, h3, h4, List.length_drop]
  · rcases hb : packB n with _ | b <;> rw [hb] at h <;>
      simp only [Option.some.injEq] at h
    · exact absurd h (by simp)
    · subst h
      simp only [List.getLast_singleton]
      rcases Nat.lt_or_ge buf.length MAX_PACKET_LENGTH with hlt | hge
      · rw [Nat.mod_eq_of_lt hlt]
        by_cases hz : buf.length = 0
        · simp [hz]
        · simp [hz]
      · have heq : buf.length = MAX_PACKET_LENGTH := by omega
        rw [heq, Nat.mod_self]
        have h0 : MAX_PACKET_LENGTH ≠ 0 := by decide
        simp [h0]
termination_by buf.length
decreasing_by
  simp only [List.length_drop]
  have h0 : 0 < MAX_PACKET_LENGTH := by decide
  omega

/-- `_prepare_packets(buf, n)` succeeds exactly when the last fragment's
sequence byte `n + numFragments buf - 1` still fits in one byte;
otherwise `struct.pack('<B', pktnr)` raises. -/
theorem preparePackets_isSome_iff (buf : List Nat) (n : Nat) :
    (preparePackets buf n).isSome ↔ n + numFragments buf ≤ 256 := by
  rw [preparePackets]
  by_cases hgt : MAX_PACKET_LENGTH < buf.length <;> simp only [hgt, if_true, if_false]
  · have ih := preparePackets_isSome_iff (buf.drop MAX_PACKET_LENGTH) (n + 1)
    rw [numFragments_drop buf hgt]
    rcases hb : packB n with _ | b
    · have h255 : ¬ n ≤ 255 := by
        intro hc
        simp [packB, hc] at hb
      rcases hr : preparePackets (buf.drop MAX_PACKET_LENGTH) (n + 1) with _ | rest <;>
        simp <;> omega
    · obtain ⟨h255, -⟩ := packB_eq_some hb
      rcases hr : preparePackets (buf.drop MAX_PACKET_LENGTH) (n + 1) with _ | rest <;>
        rw [hr] at ih <;> simp at ih <;> simp <;> omega
  · have hnf : numFragments buf = 1 := by
      have : buf.length - 1 < MAX_PACKET_LENGTH := by
        have h0 : 0 < MAX_PACKET_LENGTH := by decide
        omega
      simp [numFragments, Nat.div_eq_of_lt this]
    rcases hb : packB n with _ | b
    · have h255 : ¬ n ≤ 255 := by
        intro hc
        simp [packB, hc] at hb
      simp [hnf]
      omega
    · obtain ⟨h255, -⟩ := packB_eq_some hb
      simp [hnf]
      omega
termination_by buf.length
decreasing_by
  simp only [List.length_drop]
  have h0 : 0 < MAX_PACKET_LENGTH := by decide
  omega

/-- Computation: a buffer of `MAX + k` equal bytes (`1 ≤ k ≤ MAX`)
splits into one full fragment and one fragment of `k` bytes. -/
theorem preparePackets_replicate_chunk2 (k n x : Nat)
    (hk1 : 1 ≤ k) (hk2 : k ≤ MAX_PACKET_LENGTH) (hn : n ≤ 254) :
    preparePackets (List.replicate (MAX_PACKET_LENGTH + k) x) n =
      some [⟨MAX_PACKET_LENGTH, n, List.replicate MAX_PACKET_LENGTH x⟩,
            ⟨k, n + 1, List.replicate k x⟩] := by
  have h0 : 0 < MAX_PACKET_LENGTH := by decide
  have hb1 : packB n = some n := by
    simp only [packB, if_pos (by omega : n ≤ 255)]
  have hb2 : packB (n + 1) = some (n + 1) := by
    simp only [packB, if_pos (by omega : n + 1 ≤ 255)]
  rw [preparePackets,
    if_pos (by simp only [List.length_replicate]; omega), hb1]
  have harg1 : MAX_PACKET_LENGTH + k - MAX_PACKET_LENGTH = k := by omega
  have harg2 : min MAX_PACKET_LENGTH (MAX_PACKET_LENGTH + k) = MAX_PACKET_LENGTH := by omega
  have hdrop : (List.replicate (MAX_PACKET_LENGTH + k) x).drop MAX_PACKET_LENGTH
      = List.replicate k x := by
    rw [List.drop_replicate, harg1]
  have htake : (List.replicate (MAX_PACKET_LENGTH + k) x).take MAX_PACKET_LENGTH
      = List.replicate MAX_PACKET_LENGTH x := by
    rw [List.take_replicate, harg2]
  rw [hdrop, htake, preparePackets,
    if_neg (by simp only [List.length_replicate]; omega), hb2]
  simp

/-- C1 (amended): for any buffer longer than `MAX_PACKET_LENGTH` on which
`_prepare_packets` succeeds, concatenating the fragment payloads recovers
the buffer, the fragment count is `⌈len/MAX⌉`, every non-terminal fragment
carries length field `MAX`, and the terminal fragment carries length field
`len % MAX` — except that when `len` is an exact multiple of `MAX` the
terminal fragment is full (`MAX`), not strictly smaller (and no empty
terminal fragment is produced). -/
theorem prepare_packets_fragmentation (buf : List Nat) (n : Nat)
    (pkts : List RawPacket)
    (hlen : MAX_PACKET_LENGTH < buf.length)
    (h : preparePackets buf n = some pkts) :
    (pkts.map RawPacket.payload).flatten = buf ∧
    pkts.length = (buf.length + MAX_PACKET_LENGTH - 1) / MAX_PACKET_LENGTH ∧
    (∀ i (hi : i < pkts.length), i + 1 < pkts.length →
      (pkts.get ⟨i, hi⟩).lenField = MAX_PACKET_LENGTH) ∧
    ∃ hne : pkts ≠ [],
      (pkts.getLast hne).lenField =
        if buf.length % MAX_PACKET_LENGTH = 0 then MAX_PACKET_LENGTH
        else buf.length % MAX_PACKET_LENGTH := by
  have h0 : 0 < MAX_PACKET_LENGTH := by decide
  refine ⟨preparePackets_join buf n pkts h, ?_,
    preparePackets_lenField_nonterminal buf n pkts h, ?_⟩
  · have hceil : buf.length + MAX_PACKET_LENGTH - 1
        = (buf.length - 1) + MAX_PACKET_LENGTH := by omega
    rw [hceil, Nat.add_div_right _ h0]
    exact preparePackets_length buf n pkts h
  · refine ⟨preparePackets_ne_nil buf n pkts h, ?_⟩
    rw [preparePackets_lenField_last buf n pkts h]
    have hbz : buf.length ≠ 0 := by omega
    by_cases hm : buf.length % MAX_PACKET_LENGTH = 0 <;> simp [hm, hbz]

/-- C1 counterexample: for a payload whose length is exactly
`2 * MAX_PACKET_LENGTH` (an exact multiple of the maximum segment size),
the terminal fragment's length field equals `MAX_PACKET_LENGTH`; it is
not strictly less than the maximum as the claim states. -/
theorem prepare_packets_terminal_not_lt :
    ∃ pkts, preparePackets (List.replicate (2 * MAX_PACKET_LENGTH) 0) 0 = some pkts ∧
      MAX_PACKET_LENGTH < (List.replicate (2 * MAX_PACKET_LENGTH) (0 : Nat)).length ∧
      ∃ hne : pkts ≠ [],
        ¬ (pkts.getLast hne).lenField < MAX_PACKET_LENGTH := by
  have h0 : 0 < MAX_PACKET_LENGTH := by decide
  have hp := preparePackets_replicate_chunk2 MAX_PACKET_LENGTH 0 0
    h0 (Nat.le_refl _) (by omega)
  rw [two_mul]
  refine ⟨_, hp, by simp only [List.length_replicate]; omega, by simp, ?_⟩
  simp [List.getLast]

/-- C9: `_prepare_packets(buf, n)` gives the `k`-th fragment the raw
sequence byte `n + k` (no reduction modulo 256), and it succeeds exactly
when the final fragment's sequence number `n + numFragments - 1` still
fits in one byte; beyond that `struct.pack('<B', ...)` raises instead of
wrapping. -/
theorem prepare_packets_seq_no_wrap (buf : List Nat) (n : Nat) :
    ((preparePackets buf n).isSome ↔ n + numFragments buf ≤ 256) ∧
    ∀ pkts, preparePackets buf n = some pkts →
      pkts.length = numFragments buf ∧
      ∀ i (hi : i < pkts.length), (pkts.get ⟨i, hi⟩).seq = n + i :=
  ⟨preparePackets_isSome_iff buf n, fun pkts h =>
    ⟨preparePackets_length buf n pkts h, preparePackets_seq buf n pkts h⟩⟩

theorem prepare_packets_seq_no_wrap_witness :
    preparePackets [7] 9 = some [⟨1, 9, [7]⟩] ∧
    (([⟨1, 9, [7]⟩] : List RawPacket).length = numFragments [7] ∧
      ∀ i (hi : i < ([⟨1, 9, [7]⟩] : List RawPacket).length),
        (([⟨1, 9, [7]⟩] : List RawPacket).get ⟨i, hi⟩).seq = 9 + i) ∧
    ¬ (preparePackets [] 256).isSome := by
  have hp : preparePackets [7] 9 = some [⟨1, 9, [7]⟩] := by
    rw [preparePackets]
    norm_num [packB, MAX_PACKET_LENGTH]
  refine ⟨hp, (prepare_packets_seq_no_wrap [7] 9).2 _ hp, ?_⟩
  rw [(prepare_packets_seq_no_wrap [] 256).1]
  simp [numFragments]

theorem prepare_packets_fragmentation_witness :
    ∃ pkts, preparePackets (List.replicate (MAX_PACKET_LENGTH + 1) 0) 0 = some pkts ∧
      ((pkts.map RawPacket.payload).flatten = List.replicate (MAX_PACKET_LENGTH + 1) 0 ∧
        pkts.length = 2 ∧
        ∃ hne : pkts ≠ [], (pkts.getLast hne).lenField = 1) := by
  have h0 : 0 < MAX_PACKET_LENGTH := by decide
  have hp := preparePackets_replicate_chunk2 1 0 0 (Nat.le_refl 1) h0 (by omega)
  have hlen : MAX_PACKET_LENGTH < (List.replicate (MAX_PACKET_LENGTH + 1) (0 : Nat)).length := by
    simp only [List.length_replicate]
    omega
  obtain ⟨hjoin, hcount, -, hne, hlast⟩ :=
    prepare_packets_fragmentation _ 0 _ hlen hp
  refine ⟨_, hp, hjoin, ?_, hne, ?_⟩
  · rw [hcount]
    simp only [List.length_replicate]
    rw [(by omega : MAX_PACKET_LENGTH + 1 + MAX_PACKET_LENGTH - 1 = MAX_PACKET_LENGTH + MAX_PACKET_LENGTH)]
    rw [Nat.add_div_right _ h0, Nat.div_self h0]
  · rw [hlast]
    simp only [List.length_replicate]
    have hmod : (MAX_PACKET_LENGTH + 1) % MAX_PACKET_LENGTH = 1 := by
      rw [Nat.add_mod_left]
      exact Nat.mod_eq_of_lt (by decide)
    simp [hmod]

/-! ## Errors

One error type covering the `mysql.connector.errors` classes the embedded
code raises. -/

inductive DriverError where
  /-- `errors.InternalError("Unread result found.")` -/
  | internalUnreadResult
  /-- `errors.InternalError("No result set available.")` -/
  | internalNoResultSet
  /-- `errors.OperationalError("MySQL Connection not available.")` -/
  | operationalNotAvailable
  /-- `errors.InterfaceError(errno=...)`, e.g. 2013 on a dropped read -/
  | interfaceLost (errno : Nat)
  /-- `errors.InterfaceError('Empty response')` -/
  | interfaceEmptyResponse
  /-- `errors.InterfaceError('Illegal result set.')` -/
  | interfaceIllegalResultSet
  /-- `errors.InterfaceError('Expected OK packet')` -/
  | interfaceExpectedOk
  /-- `errors.InterfaceError('Expected EOF packet')` -/
  | interfaceExpectedEof
  /-- `errors.InterfaceError("File '...' could not be read")` -/
  | interfaceFileNotRead (filename : List Nat)
  /-- `errors.InterfaceError('Invalid shutdown type')` -/
  | interfaceInvalidShutdown
  /-- `errors.InterfaceError("Can not reconnect to MySQL after N attempt(s)")` -/
  | interfaceReconnectFailed (attempts : Nat)
  /-- `errors.InterfaceError("Connection to MySQL is not available.")` -/
  | interfaceConnNotAvailable
  /-- `errors.NotSupportedError(...)` -/
  | notSupported
  /-- `errors.PoolError(...)`; `true` means "pool exhausted" -/
  | poolError (exhausted : Bool)
  /-- a server ERR packet surfaced via `errors.get_exception(packet)` -/
  | serverError (packet : List Nat)
  /-- Python `IndexError` from an out-of-range byte access -/
  | indexError
  /-- an `asyncio.IncompleteReadError` from `readexactly` on a closed stream -/
  | streamEnded
  /-- a `struct.error`/`ValueError` escaping a packet parser -/
  | parseError
  /-- `errors.InterfaceError('Use cmd_query_iter for statements with multiple queries.')` -/
  | interfaceUseCmdQueryIter
deriving Repr, DecidableEq

/-! ## recv_plain (claim C4) -/

/-- `BaseMySQLSocket.recv_plain` (network.py lines 221-250).  Reads the
4-byte header from the stream, *unconditionally* stores the header's
sequence byte as the connection's new packet number
(`self._packet_number = packet[3]`), computes the payload length from the
3 little-endian length bytes, and reads exactly that many payload bytes.
Returns `(new packet number, whole packet, rest of stream)`.  A stream
that ends inside the payload raises `InterfaceError(errno=2013)`. -/
def recvPlain (stream : List Nat) :
    Except DriverError (Nat × List Nat × List Nat) :=
  match stream with
  | b0 :: b1 :: b2 :: b3 :: rest =>
      let payloadLen := b0 + 256 * b1 + 65536 * b2
      if rest.length < payloadLen then .error (.interfaceLost 2013)
      else .ok (b3, b0 :: b1 :: b2 :: b3 :: rest.take payloadLen,
        rest.drop payloadLen)
  | _ => .error .streamEnded

/-- C4 (amended): `recv_plain` performs no sequence-number validation at
all: whatever sequence byte arrives is accepted and recorded as the new
packet number, for every header and every payload; no desynchronization
error exists in the function. -/
theorem recv_plain_accepts_any_seq (b0 b1 b2 seq : Nat) (rest : List Nat)
    (h : b0 + 256 * b1 + 65536 * b2 ≤ rest.length) :
    recvPlain (b0 :: b1 :: b2 :: seq :: rest) =
      .ok (seq, b0 :: b1 :: b2 :: seq :: rest.take (b0 + 256 * b1 + 65536 * b2),
        rest.drop (b0 + 256 * b1 + 65536 * b2)) := by
  simp only [recvPlain]
  rw [if_neg (by omega)]

/-- C4 witness: a 1-byte payload packet with sequence byte 77 is accepted
as-is. -/
theorem recv_plain_accepts_any_seq_witness :
    recvPlain [1, 0, 0, 77, 9] = .ok (77, [1, 0, 0, 77, 9], []) := by
  have h := recv_plain_accepts_any_seq 1 0 0 77 [9] (by decide)
  simpa using h

/-- C4 counterexample: with the previous packet number 0, a packet whose
sequence byte is 5 — not the successor `(0 + 1) % 256` — is returned
successfully instead of raising a desynchronization error. -/
theorem recv_plain_counterexample :
    recvPlain [1, 0, 0, 5, 9] = .ok (5, [1, 0, 0, 5, 9], []) ∧
      (5 : Nat) ≠ (0 + 1) % 256 := by
  exact ⟨rfl, by decide⟩

/-! ## send_compressed (claim C5) -/

/-- `struct.pack('<I', n)[0:3]`: the three little-endian low bytes. -/
def le3 (n : Nat) : List Nat :=
  [n % 256, n / 256 % 256, n / 65536 % 256]

/-- The byte string of one prepared packet: 3 length bytes, the sequence
byte, then the payload (as concatenated by `b''.join(pkts)`). -/
def packetBytes (p : RawPacket) : List Nat :=
  le3 p.lenField ++ p.seq :: p.payload

/-- One frame of the compressed protocol: 3-byte compressed-length field,
1-byte sequence, 3-byte uncompressed-length field (0 = body sent
uncompressed), then the body. -/
structure ZPacket where
  zlenField : Nat
  seq : Nat
  uncompLenField : Nat
  body : List Nat
deriving Repr, DecidableEq

/-- The `while pllen > maxpktlen` loop of `send_compressed` (network.py
lines 179-194) over the already-flattened multi-packet buffer, starting
at compressed-sequence id `seqid`: full `MAX`-sized chunks are compressed
with uncompressed-length field `b'\xff\xff\xff'`, then a final nonempty
remainder is compressed with its true length. -/
def sendCompressedLoop (compress : List Nat → List Nat)
    (tmpbuf : List Nat) (seqid : Nat) : Option (List ZPacket) :=
  if MAX_PACKET_LENGTH < tmpbuf.length then
    match packB seqid,
        sendCompressedLoop compress (tmpbuf.drop MAX_PACKET_LENGTH) (seqid + 1) with
    | some s, some rest =>
        some (⟨(compress (tmpbuf.take MAX_PACKET_LENGTH)).length, s,
          MAX_PACKET_LENGTH, compress (tmpbuf.take MAX_PACKET_LENGTH)⟩ :: rest)
    | _, _ => none
  else if tmpbuf.isEmpty then some []
  else
    match packB seqid with
    | some s => some [⟨(compress tmpbuf).length, s, tmpbuf.length, compress tmpbuf⟩]
    | none => none
termination_by tmpbuf.length
decreasing_by
  simp only [List.length_drop]
  have h0 : 0 < MAX_PACKET_LENGTH := by decide
  omega

/-- `BaseMySQLSocket.send_compressed` (network.py lines 156-219), with
the resolved packet number `pktnr` and the zlib codec abstracted as the
function `compress` (an external collaborator).  For an over-long buffer
the prepared packets are flattened and re-chunked (first chunk 16384
bytes, header `b'\x00\x40\x00'` = 16384); for a buffer that fits in one
packet, the framed packet `pkt = len3 ++ pktnr ++ buf` is compressed
exactly when `len(pkt) > 50`, and otherwise sent with uncompressed-length
field 0. -/
def sendCompressed (compress : List Nat → List Nat)
    (buf : List Nat) (pktnr : Nat) : Option (List ZPacket) :=
  if MAX_PACKET_LENGTH < buf.length then
    match preparePackets buf pktnr with
    | none => none
    | some pkts =>
        let tmpbuf := (pkts.map packetBytes).flatten
        let zbuf := compress (tmpbuf.take 16384)
        match sendCompressedLoop compress (tmpbuf.drop 16384) 1 with
        | none => none
        | some zrest => some (⟨zbuf.length, 0, 16384, zbuf⟩ :: zrest)
  else
    match packB pktnr with
    | none => none
    | some b =>
        let pkt := le3 buf.length ++ b :: buf
        if 50 < pkt.length then
          some [⟨(compress pkt).length, 0, pkt.length, compress pkt⟩]
        else
          some [⟨pkt.length, 0, 0, pkt⟩]

/-- C5 (amended): in compression mode the compress/no-compress decision
is taken on the *framed* packet (buffer plus 4 header bytes): buffers of
at most 46 bytes (packets of at most 50 bytes) are sent uncompressed with
uncompressed-length field 0, and buffers of 47 bytes or more (packets of
51 bytes or more, up to `MAX_PACKET_LENGTH`) are compressed; the
threshold falls between buffer sizes 46 and 47, not 50 and 51. -/
theorem send_compressed_threshold (compress : List Nat → List Nat)
    (buf : List Nat) (n : Nat) (hn : n ≤ 255)
    (hmax : buf.length ≤ MAX_PACKET_LENGTH) :
    (buf.length ≤ 46 →
      sendCompressed compress buf n =
        some [⟨buf.length + 4, 0, 0, le3 buf.length ++ n :: buf⟩]) ∧
    (46 < buf.length →
      sendCompressed compress buf n =
        some [⟨(compress (le3 buf.length ++ n :: buf)).length, 0,
          buf.length + 4, compress (le3 buf.length ++ n :: buf)⟩]) := by
  have hb : packB n = some n := by
    simp only [packB, if_pos hn]
  have hlen : (le3 buf.length ++ n :: buf).length = buf.length + 4 := by
    simp only [le3, List.length_append, List.length_cons, List.length_nil]
    omega
  rw [sendCompressed]
  rw [if_neg (by omega)]
  rw [hb]
  simp only [hlen]
  constructor
  · intro h46
    rw [if_neg (by omega)]
  · intro h46
    rw [if_pos (by omega)]

/-- C5 witness: with the identity codec standing in for zlib, a 46-byte
buffer is framed uncompressed and a 47-byte buffer is compressed. -/
theorem send_compressed_threshold_witness :
    sendCompressed id (List.replicate 46 1) 3 =
      some [⟨50, 0, 0, le3 46 ++ 3 :: List.replicate 46 1⟩] ∧
    sendCompressed id (List.replicate 47 1) 3 =
      some [⟨(id (le3 47 ++ 3 :: List.replicate 47 1)).length, 0,
        51, id (le3 47 ++ 3 :: List.replicate 47 1)⟩] := by
  constructor
  · have h := (send_compressed_threshold id (List.replicate 46 1) 3
      (by decide) (by simp only [List.length_replicate]; decide)).1
      (by simp only [List.length_replicate]; decide)
    simpa using h
  · have h := (send_compressed_threshold id (List.replicate 47 1) 3
      (by decide) (by simp only [List.length_replicate]; decide)).2
      (by simp only [List.length_replicate]; decide)
    simpa using h

/-- C5 counterexample: a buffer of exactly 50 bytes is *compressed*
(uncompressed-length field `54 ≠ 0`), not sent uncompressed as the claim
states: the framed packet is 54 > 50 bytes long. -/
theorem send_compressed_50_byte_buffer_compressed :
    sendCompressed id (List.replicate 50 7) 0 =
      some [⟨54, 0, 54, le3 50 ++ 0 :: List.replicate 50 7⟩] ∧
      (54 : Nat) ≠ 0 := by
  refine ⟨?_, by decide⟩
  rw [sendCompressed,
    if_neg (by simp only [List.length_replicate]; decide)]
  rfl

/-! ## First-byte response dispatch (claim C3) -/

/-- How `AioMySQLConnection._handle_result` classifies a response packet
from its first payload byte. -/
inductive ResponseClass where
  /-- `InterfaceError('Empty response')` for a short/empty buffer -/
  | emptyResponse
  /-- byte `0x00`: handled as an OK packet (`_handle_ok`) -/
  | okPacket
  /-- byte `0xFB` (251): a LOAD DATA INFILE filename request -/
  | loadDataInfile
  /-- byte `0xFE` (254): handled as an EOF packet (`_handle_eof`) -/
  | eofPacket
  /-- byte `0xFF` (255): `errors.get_exception(packet)` is raised -/
  | errPacket
  /-- any other byte: fall through to `parse_column_count` -/
  | columnCount
  /-- `packet[4]` out of range (Python `IndexError`) -/
  | outOfRange
deriving Repr, DecidableEq

/-- The branch structure of `AioMySQLConnection._handle_result`
(connection.py lines 307-343): `if not packet or len(packet) < 4` ⇒
empty-response error; then dispatch on `packet[4]`, the first payload
byte: `0` ⇒ OK, `251` ⇒ LOAD DATA INFILE, `254` ⇒ EOF (any length),
`255` ⇒ raise server error, else ⇒ column count. -/
def handleResultDispatch (packet : List Nat) : ResponseClass :=
  if packet.length < 4 then .emptyResponse
  else
    match packet[4]? with
    | none => .outOfRange
    | some b =>
        if b = 0 then .okPacket
        else if b = 251 then .loadDataInfile
        else if b = 254 then .eofPacket
        else if b = 255 then .errPacket
        else .columnCount

/-- How `AioMySQLConnection._auth_switch_request` classifies the packet
it receives. -/
inductive AuthSwitchClass where
  /-- byte 254 with total packet length exactly 5: the old insecure
  password sentinel, `NotSupportedError` is raised -/
  | oldAuthNotSupported
  /-- byte 254 with a longer packet: an AuthSwitchRequest -/
  | authSwitchRequest
  /-- byte 255: `errors.get_exception(packet)` is raised -/
  | errPacket
  /-- any other byte: the method falls through and returns `None` -/
  | fallThrough
  /-- `packet[4]` out of range (Python `IndexError`) -/
  | outOfRange
deriving Repr, DecidableEq

/-- The branch structure of `AioMySQLConnection._auth_switch_request`
(connection.py lines 131-162): `packet[4] == 254 and len(packet) == 5`
⇒ old-auth `NotSupportedError`; `packet[4] == 254` ⇒ AuthSwitchRequest;
`packet[4] == 255` ⇒ raise; otherwise fall through. -/
def authSwitchDispatch (packet : List Nat) : AuthSwitchClass :=
  match packet[4]? with
  | none => .outOfRange
  | some b =>
      if b = 254 ∧ packet.length = 5 then .oldAuthNotSupported
      else if b = 254 then .authSwitchRequest
      else if b = 255 then .errPacket
      else .fallThrough

/-- C3 (amended): dispatch on the first payload byte: `0xFF` always
raises the server error regardless of the remaining bytes, `0x00` is
always an OK outcome, `0xFE` is always an EOF outcome (the old-auth
sentinel when length is 5 during authentication) and never a column
count; every other first byte *except `0xFB`* falls through to the
length-encoded column count; `0xFB` is treated as a LOAD DATA INFILE
filename request. -/
theorem response_first_byte_dispatch (packet : List Nat) (b : Nat)
    (hb : packet[4]? = some b) :
    (b = 255 → handleResultDispatch packet = .errPacket ∧
      authSwitchDispatch packet = .errPacket) ∧
    (b = 0 → handleResultDispatch packet = .okPacket) ∧
    (b = 254 → handleResultDispatch packet = .eofPacket ∧
      (packet.length = 5 → authSwitchDispatch packet = .oldAuthNotSupported)) ∧
    (b = 251 → handleResultDispatch packet = .loadDataInfile) ∧
    (b ≠ 0 ∧ b ≠ 251 ∧ b ≠ 254 ∧ b ≠ 255 →
      handleResultDispatch packet = .columnCount) := by
  have hlen : ¬ packet.length < 4 := by
    rcases List.getElem?_eq_some_iff.mp hb with ⟨h4, -⟩
    omega
  refine ⟨?_, ?_, ?_, ?_, ?_⟩
  · rintro rfl
    constructor
    · simp [handleResultDispatch, hlen, hb]
    · simp [authSwitchDispatch, hb]
  · rintro rfl
    simp [handleResultDispatch, hlen, hb]
  · rintro rfl
    constructor
    · simp [handleResultDispatch, hlen, hb]
    · intro h5
      simp [authSwitchDispatch, hb, h5]
  · rintro rfl
    simp [handleResultDispatch, hlen, hb]
  · rintro ⟨h0, h251, h254, h255⟩
    simp [handleResultDispatch, hlen, hb, h0, h251, h254, h255]

theorem response_first_byte_dispatch_witness :
    (handleResultDispatch [0, 0, 0, 0, 255, 1, 2] = .errPacket ∧
      authSwitchDispatch [0, 0, 0, 0, 255, 1, 2] = .errPacket) ∧
    handleResultDispatch [1, 0, 0, 0, 0, 9] = .okPacket ∧
    (handleResultDispatch [1, 0, 0, 1, 254] = .eofPacket ∧
      authSwitchDispatch [1, 0, 0, 1, 254] = .oldAuthNotSupported) ∧
    handleResultDispatch [3, 0, 0, 1, 5, 97, 98] = .columnCount := by
  refine ⟨(response_first_byte_dispatch [0, 0, 0, 0, 255, 1, 2] 255 rfl).1 rfl,
    (response_first_byte_dispatch [1, 0, 0, 0, 0, 9] 0 rfl).2.1 rfl,
    ⟨((response_first_byte_dispatch [1, 0, 0, 1, 254] 254 rfl).2.2.1 rfl).1,
      ((response_first_byte_dispatch [1, 0, 0, 1, 254] 254 rfl).2.2.1 rfl).2 rfl⟩,
    (response_first_byte_dispatch [3, 0, 0, 1, 5, 97, 98] 5 rfl).2.2.2.2
      (by decide)⟩

/-- C3 counterexample: the first payload byte `0xFB` (251) — which is
none of `0x00`/`0xFE`/`0xFF` — is *not* treated as a length-encoded
column count or row data: `_handle_result` routes it to the LOAD DATA
INFILE branch. -/
theorem response_dispatch_251_not_column_count :
    handleResultDispatch [0, 0, 0, 0, 251, 97] = .loadDataInfile ∧
    ResponseClass.loadDataInfile ≠ ResponseClass.columnCount ∧
    (251 : Nat) ≠ 0 ∧ (251 : Nat) ≠ 254 ∧ (251 : Nat) ≠ 255 := by
  decide

/-! ## Connection pool (claims C6, C7) -/

/-- A pooled `AioMySQLConnection` as the pool sees it: its stored
`_pool_config_version` stamp, plus the world-dependent outcomes of the
two coroutines `get_connection` may run on it (`is_connected()` and
`reconnect()`). -/
structure PoolConn where
  poolConfigVersion : Nat
  isConnectedResult : Bool
  reconnectSucceeds : Bool
deriving Repr, DecidableEq

/-- `MySQLConPool` state: the FIFO connection queue (head = next to be
dequeued, `_queue_connection` appends at the tail) and the pool's
current `_config_version` stamp. -/
structure PoolState where
  cnxQueue : List PoolConn
  configVersion : Nat
deriving Repr, DecidableEq

/-- `MySQLConPool.get_connection` (pooling.py lines 141-176): dequeue
without blocking, raising `PoolError("Failed getting connection; pool
exhausted")` if the queue is empty; if the connection is dead or carries
a stale config-version stamp, reconfigure and reconnect — on reconnect
`InterfaceError` the connection is appended back onto the queue and the
error re-raised; otherwise the connection is handed out (with a fresh
stamp when it was reconnected). -/
def get_connection (p : PoolState) :
    PoolState × Except DriverError PoolConn :=
  match p.cnxQueue with
  | [] => (p, .error (.poolError true))
  | cnx :: rest =>
      if cnx.isConnectedResult = false ∨ p.configVersion ≠ cnx.poolConfigVersion then
        if cnx.reconnectSucceeds then
          ({ p with cnxQueue := rest },
            .ok { cnx with poolConfigVersion := p.configVersion })
        else
          ({ p with cnxQueue := rest ++ [cnx] },
            .error (.interfaceReconnectFailed 1))
      else
        ({ p with cnxQueue := rest }, .ok cnx)

/-- C6: with an empty connection queue (all connections leased),
`get_connection()` fails immediately with the pool-exhaustion
`PoolError`, leaving the pool unchanged — no blocking, no queuing, no
new connection. -/
theorem get_connection_pool_exhausted (p : PoolState)
    (h : p.cnxQueue = []) :
    get_connection p = (p, .error (.poolError true)) := by
  unfold get_connection
  rw [h]

/-- C6 witness: a pool of size 2 serves two `get_connection` calls and
fails the third with pool exhaustion rather than hanging. -/
theorem get_connection_pool_exhausted_witness :
    get_connection ⟨[⟨0, true, true⟩, ⟨0, true, true⟩], 0⟩
      = (⟨[⟨0, true, true⟩], 0⟩, .ok ⟨0, true, true⟩) ∧
    get_connection ⟨[⟨0, true, true⟩], 0⟩ = (⟨[], 0⟩, .ok ⟨0, true, true⟩) ∧
    get_connection ⟨[], 0⟩ = (⟨[], 0⟩, .error (.poolError true)) :=
  ⟨rfl, rfl, get_connection_pool_exhausted ⟨[], 0⟩ rfl⟩

/-- C7: when the dequeued connection fails its liveness check or carries
a stale config-version stamp and the reconnect attempt raises, the
connection is put back onto the queue before the `InterfaceError`
propagates, so the pool holds exactly as many connections afterwards as
before the failed call. -/
theorem get_connection_requeues_on_reconnect_failure (p : PoolState)
    (cnx : PoolConn) (rest : List PoolConn)
    (hq : p.cnxQueue = cnx :: rest)
    (hstale : cnx.isConnectedResult = false ∨ p.configVersion ≠ cnx.poolConfigVersion)
    (hfail : cnx.reconnectSucceeds = false) :
    (get_connection p).1.cnxQueue = rest ++ [cnx] ∧
    (get_connection p).2 = .error (.interfaceReconnectFailed 1) ∧
    (get_connection p).1.cnxQueue.length = p.cnxQueue.length := by
  obtain ⟨q, v⟩ := p
  simp only at hq hstale
  subst hq
  simp only [get_connection]
  rw [if_pos hstale, if_neg (by simp [hfail])]
  simp

/-- C7 witness: a stale, dead connection whose reconnect fails is
re-queued at the tail and the error surfaces; the queue length is
unchanged. -/
theorem get_connection_requeues_witness :
    (get_connection ⟨[⟨5, false, false⟩, ⟨7, true, true⟩], 7⟩).1.cnxQueue
      = [⟨7, true, true⟩, ⟨5, false, false⟩] ∧
    (get_connection ⟨[⟨5, false, false⟩, ⟨7, true, true⟩], 7⟩).2
      = .error (.interfaceReconnectFailed 1) ∧
    (get_connection ⟨[⟨5, false, false⟩, ⟨7, true, true⟩], 7⟩).1.cnxQueue.length = 2 := by
  have h := get_connection_requeues_on_reconnect_failure
    ⟨[⟨5, false, false⟩, ⟨7, true, true⟩], 7⟩ ⟨5, false, false⟩ [⟨7, true, true⟩]
    rfl (Or.inl rfl) rfl
  exact ⟨h.1, h.2.1, by rw [h.2.2]; rfl⟩

/-! ## reconnect / ping (claims C8, C10) -/

/-- The world's response to one iteration of the `reconnect` retry loop
(the `try: disconnect; connect; if is_connected(): break` block in
connection.py lines 677-691). -/
inductive AttemptOutcome where
  /-- `connect()` (or the ping inside `is_connected`) raised -/
  | raisesErr
  /-- the block ran without raising but `is_connected()` was `False` -/
  | liveFalse
  /-- the connection came up live: the loop breaks -/
  | liveTrue
deriving Repr, DecidableEq

/-- The retry loop of `AioMySQLConnection.reconnect` with `remaining =
attempts - counter` iterations still to run; `world i` is the outcome of
the `i`-th (0-based) connection attempt.  Returns `(attempts made,
sleeps performed, outcome)`.  A raising attempt re-raises as a wrapped
`InterfaceError` only when it was the last one (`counter == attempts`);
otherwise the loop sleeps `delay` seconds (when positive) and retries.
A final `liveFalse` iteration lets the loop terminate without error,
mirroring the Python code. -/
def reconnectAux (world : Nat → AttemptOutcome) (delay attempts : Nat) :
    Nat → Nat × Nat × Except DriverError Unit
  | 0 => (0, 0, .ok ())
  | 1 =>
      match world (attempts - 1) with
      | .liveTrue => (1, 0, .ok ())
      | .liveFalse => (1, if 0 < delay then 1 else 0, .ok ())
      | .raisesErr => (1, 0, .error (.interfaceReconnectFailed attempts))
  | r + 2 =>
      match world (attempts - (r + 2)) with
      | .liveTrue => (1, 0, .ok ())
      | .liveFalse =>
          let res := reconnectAux world delay attempts (r + 1)
          (res.1 + 1, res.2.1 + (if 0 < delay then 1 else 0), res.2.2)
      | .raisesErr =>
          let res := reconnectAux world delay attempts (r + 1)
          (res.1 + 1, res.2.1 + (if 0 < delay then 1 else 0), res.2.2)

/-- `AioMySQLConnection.reconnect(attempts, delay)` (connection.py lines
663-691): `counter` starts at 0 and the loop runs `while counter !=
attempts`. -/
def reconnect (world : Nat → AttemptOutcome) (attempts delay : Nat) :
    Nat × Nat × Except DriverError Unit :=
  reconnectAux world delay attempts attempts

/-- `AioMySQLConnection.ping(reconnect, attempts, delay)` (connection.py
lines 693-715): try `cmd_ping`; on any exception either delegate to
`reconnect(attempts, delay)` or raise `InterfaceError("Connection to
MySQL is not available.")`.  `pingFails` is the world-dependent outcome
of the initial `cmd_ping`. -/
def ping (pingFails : Bool) (world : Nat → AttemptOutcome)
    (reconnectFlag : Bool) (attempts delay : Nat) :
    Nat × Nat × Except DriverError Unit :=
  if pingFails then
    if reconnectFlag then reconnect world attempts delay
    else (0, 0, .error .interfaceConnNotAvailable)
  else (0, 0, .ok ())

theorem reconnectAux_count_le (world : Nat → AttemptOutcome)
    (delay attempts r : Nat) :
    (reconnectAux world delay attempts r).1 ≤ r := by
  match r with
  | 0 => simp [reconnectAux]
  | 1 =>
      rw [reconnectAux]
      cases hw : world (attempts - 1)
      · show (1 : Nat) ≤ 1
        omega
      · show (1 : Nat) ≤ 1
        omega
      · show (1 : Nat) ≤ 1
        omega
  | r + 2 =>
      rw [reconnectAux]
      have ih := reconnectAux_count_le world delay attempts (r + 1)
      cases hw : world (attempts - (r + 2))
      · show (reconnectAux world delay attempts (r + 1)).1 + 1 ≤ r + 2
        omega
      · show (reconnectAux world delay attempts (r + 1)).1 + 1 ≤ r + 2
        omega
      · show (1 : Nat) ≤ r + 2
        omega

theorem reconnectAux_all_fail (world : Nat → AttemptOutcome)
    (delay attempts : Nat)
    (hall : ∀ i, i < attempts → world i = .raisesErr)
    (r : Nat) (h1 : 1 ≤ r) (h2 : r ≤ attempts) :
    reconnectAux world delay attempts r =
      (r, if 0 < delay then r - 1 else 0,
        .error (.interfaceReconnectFailed attempts)) := by
  match r with
  | 0 => omega
  | 1 =>
      rw [reconnectAux, hall (attempts - 1) (by omega)]
      by_cases hd : 0 < delay <;> simp [hd]
  | r + 2 =>
      rw [reconnectAux, hall (attempts - (r + 2)) (by omega)]
      have ih := reconnectAux_all_fail world delay attempts hall (r + 1)
        (by omega) (by omega)
      show ((reconnectAux world delay attempts (r + 1)).1 + 1,
        (reconnectAux world delay attempts (r + 1)).2.1 + (if 0 < delay then 1 else 0),
        (reconnectAux world delay attempts (r + 1)).2.2) = _
      rw [ih]
      by_cases hd : 0 < delay
      · simp only [if_pos hd]
        have heq : r + 1 - 1 + 1 = r + 2 - 1 := by omega
        rw [heq]
      · simp only [if_neg hd]

/-- C8: for `attempts ≥ 1`, `reconnect` never makes more than `attempts`
connection attempts, sleeps `delay` seconds only between consecutive
attempts (`attempts - 1` sleeps when `delay > 0`), and when every
attempt raises it surfaces a wrapped `InterfaceError` after exactly
`attempts` attempts — hence `ping(reconnect=True, attempts, delay)` on a
dead server does the same. -/
theorem reconnect_retry_policy (world : Nat → AttemptOutcome)
    (attempts delay : Nat) (h1 : 1 ≤ attempts)
    (hall : ∀ i, i < attempts → world i = .raisesErr) :
    (∀ w : Nat → AttemptOutcome, (reconnect w attempts delay).1 ≤ attempts) ∧
    reconnect world attempts delay =
      (attempts, if 0 < delay then attempts - 1 else 0,
        .error (.interfaceReconnectFailed attempts)) ∧
    ping true world true attempts delay =
      (attempts, if 0 < delay then attempts - 1 else 0,
        .error (.interfaceReconnectFailed attempts)) := by
  have hmain := reconnectAux_all_fail world delay attempts hall attempts h1
    (Nat.le_refl _)
  exact ⟨fun w => reconnectAux_count_le w delay attempts attempts,
    hmain, by simp [ping, reconnect, hmain]⟩

/-- C8 witness: `ping(reconnect=True, attempts=3, delay=0)` against a
server where every attempt raises fails after exactly 3 attempts. -/
theorem reconnect_retry_policy_witness :
    reconnect (fun _ => .raisesErr) 3 0 =
      (3, 0, .error (.interfaceReconnectFailed 3)) ∧
    ping true (fun _ => .raisesErr) true 3 0 =
      (3, 0, .error (.interfaceReconnectFailed 3)) := by
  have h := reconnect_retry_policy (fun _ => .raisesErr) 3 0 (by decide)
    (fun _ _ => rfl)
  exact ⟨h.2.1, h.2.2⟩

/-- C10: `reconnect` with `attempts = 0` performs zero connection
attempts and returns normally (the `while counter != attempts` loop
never runs), so `ping(reconnect=True, attempts=0)` on a dead connection
returns successfully instead of raising. -/
theorem reconnect_zero_attempts (world : Nat → AttemptOutcome) (delay : Nat) :
    reconnect world 0 delay = (0, 0, .ok ()) ∧
    ping true world true 0 delay = (0, 0, .ok ()) :=
  ⟨rfl, rfl⟩

/-! ## Connection state machine (claim C2)

`AioMySQLConnection` methods are embedded in a state-and-error monad:
the state carries the connection flags the commands consult, the packets
written to the socket (`sent`) and the packets the server will deliver
(`inbox`).  Framing of outgoing buffers is verified separately on
`_prepare_packets`; at this layer `socket.send` appends the buffer to
`sent`. -/

/-! Server command codes from the upstream `constants.ServerCmd`. -/
namespace ServerCmd

def QUIT : Nat := 1
def INIT_DB : Nat := 2
def QUERY : Nat := 3
def REFRESH : Nat := 7
def SHUTDOWN : Nat := 8
def STATISTICS : Nat := 9
def PROCESS_KILL : Nat := 12
def DEBUG : Nat := 13
def PING : Nat := 14
def CHANGE_USER : Nat := 17
def STMT_PREPARE : Nat := 22
def STMT_EXECUTE : Nat := 23
def STMT_SEND_LONG_DATA : Nat := 24
def STMT_CLOSE : Nat := 25
def STMT_RESET : Nat := 26
def RESET_CONNECTION : Nat := 31

end ServerCmd

/-- The state of one `AioMySQLConnection`, as consulted by the command
methods: the `unread_result` / `_have_next_result` / `in_transaction`
flags, the compression flag, the negotiated client flags and charset,
the parsed server version, the byte buffers written to the socket, the
packets the server will deliver next, and the readable local files
(filename, chunk list) for LOAD DATA INFILE. -/
structure ConnState where
  unreadResult : Bool
  haveNextResult : Bool
  inTransaction : Bool
  compress : Bool
  clientFlags : Nat
  charsetId : Nat
  serverVersion : Nat × Nat × Nat
  sent : List (List Nat)
  inbox : List (List Nat)
  files : List (List Nat × List (List Nat))
deriving Repr, DecidableEq

/-- The connection monad: state threading plus Python exceptions.  A
raised exception leaves the state as it was at the raise point. -/
def DriverM (α : Type) : Type := ConnState → ConnState × Except DriverError α

def dPure {α : Type} (a : α) : DriverM α := fun st => (st, .ok a)

def dBind {α β : Type} (m : DriverM α) (f : α → DriverM β) : DriverM β :=
  fun st =>
    match m st with
    | (st1, .ok a) => f a st1
    | (st1, .error e) => (st1, .error e)

instance : Monad DriverM where
  pure := dPure
  bind := dBind

/-- `raise` -/
def throwD {α : Type} (e : DriverError) : DriverM α := fun st => (st, .error e)

def getState : DriverM ConnState := fun st => (st, .ok st)

def modifyState (f : ConnState → ConnState) : DriverM Unit :=
  fun st => (f st, .ok ())

/-- `self._socket.send(buf)`: the buffer is handed to the transport
(framing is `_prepare_packets`, verified separately). -/
def sendM (buf : List Nat) : DriverM Unit :=
  modifyState fun st => { st with sent := st.sent ++ [buf] }

/-- `self._socket.recv()`: the next server packet, or a lost-connection
error when the stream is exhausted. -/
def recvM : DriverM (List Nat) := fun st =>
  match st.inbox with
  | [] => (st, .error .streamEnded)
  | p :: rest => ({ st with inbox := rest }, .ok p)

/-- Modelled from the spec: the upstream codec's length-encoded-integer
reader `utils.read_lc_int` (not part of this repository; spec glossary
"Length-encoded integer").  Returns the remaining bytes and the value
(`none` for the 0xFB NULL marker). -/
def readLcInt : List Nat → Option (List Nat × Option Nat)
  | [] => none
  | b :: rest =>
      if b < 251 then some (rest, some b)
      else if b = 251 then some (rest, none)
      else if b = 252 then
        match rest with
        | x0 :: x1 :: r => some (r, some (x0 + 256 * x1))
        | _ => none
      else if b = 253 then
        match rest with
        | x0 :: x1 :: x2 :: r => some (r, some (x0 + 256 * x1 + 65536 * x2))
        | _ => none
      else if b = 254 then
        match rest with
        | x0 :: x1 :: x2 :: x3 :: x4 :: x5 :: x6 :: x7 :: r =>
            some (r, some (x0 + 256 * x1 + 65536 * x2 + 16777216 * x3 +
              4294967296 * (x4 + 256 * x5 + 65536 * x6 + 16777216 * x7)))
        | _ => none
      else none

/-- Modelled from the spec: the upstream codec's `parse_column_count`
(spec section 4.2: "reads a length-encoded integer from the first
response byte(s)"). -/
def parse_column_count (packet : List Nat) : Option Nat :=
  match readLcInt (packet.drop 4) with
  | some (_, some n) => some n
  | _ => none

/-- The decoded fields of an OK packet (spec section 3, Result
Envelope). -/
structure OkInfo where
  affectedRows : Option Nat
  insertId : Option Nat
  statusFlag : Nat
  warningCount : Nat
  info : List Nat
deriving Repr, DecidableEq

/-- Modelled from the spec: the upstream codec's `parse_ok` — after the
0x00 byte: length-encoded affected rows, length-encoded insert id,
2-byte status flags, 2-byte warning count, rest. -/
def parse_ok (packet : List Nat) : Option OkInfo :=
  match readLcInt (packet.drop 5) with
  | some (r1, affected) =>
      match readLcInt r1 with
      | some (r2, insertId) =>
          match r2 with
          | s0 :: s1 :: w0 :: w1 :: rest =>
              some ⟨affected, insertId, s0 + 256 * s1, w0 + 256 * w1, rest⟩
          | _ => none
      | none => none
  | none => none

/-- The decoded fields of an EOF packet (spec section 3). -/
structure EofInfo where
  warningCount : Nat
  statusFlag : Nat
deriving Repr, DecidableEq

/-- Modelled from the spec: the upstream codec's `parse_eof` — after the
0xFE byte: 2-byte warning count, 2-byte status flags. -/
def parse_eof (packet : List Nat) : Option EofInfo :=
  match packet.drop 5 with
  | w0 :: w1 :: s0 :: s1 :: _ => some ⟨w0 + 256 * w1, s0 + 256 * s1⟩
  | _ => none

/-- Modelled from the spec: upstream `_handle_server_status` — refresh
the more-results and in-transaction booleans from OK/EOF status bits
(`SERVER_MORE_RESULTS_EXISTS = 8`, `SERVER_STATUS_IN_TRANS = 1`). -/
def handleServerStatus (flags : Nat) : DriverM Unit :=
  modifyState fun st => { st with
    haveNextResult := flags &&& 8 != 0,
    inTransaction := flags &&& 1 != 0 }

/-- Modelled from the spec: upstream `MySQLConnection._handle_ok` — OK
packets update the server status; an ERR packet raises the server error;
anything else is an "Expected OK packet" interface error. -/
def handleOk (packet : List Nat) : DriverM OkInfo :=
  match packet[4]? with
  | none => throwD .indexError
  | some b =>
      if b = 0 then
        match parse_ok packet with
        | some ok => do
            handleServerStatus ok.statusFlag
            pure ok
        | none => throwD .parseError
      else if b = 255 then throwD (.serverError packet)
      else throwD .interfaceExpectedOk

/-- Modelled from the spec: upstream `MySQLConnection._handle_eof`. -/
def handleEof (packet : List Nat) : DriverM EofInfo :=
  match packet[4]? with
  | none => throwD .indexError
  | some b =>
      if b = 254 then
        match parse_eof packet with
        | some eof => do
            handleServerStatus eof.statusFlag
            pure eof
        | none => throwD .parseError
      else if b = 255 then throwD (.serverError packet)
      else throwD .interfaceExpectedEof

/-- A column definition.  Modelled from the spec: parsing the column
definition packet is the external codec's `parse_column`, opaque to the
connection-level control flow, so the raw packet is retained. -/
structure ColumnInfo where
  raw : List Nat
deriving Repr, DecidableEq

/-- Modelled from the spec: upstream `parse_column` (external codec
collaborator). -/
def parse_column (packet : List Nat) : ColumnInfo := ⟨packet⟩

/-- Modelled from the spec: the upstream codec's `make_command(cmd,
payload)` prepends the 1-byte command code (spec section 4.2). -/
def make_command (cmd : Nat) (arg : List Nat) : List Nat := cmd :: arg

/-- Modelled from the spec: upstream `utils.int4store` — 4 little-endian
bytes. -/
def int4store (n : Nat) : List Nat :=
  [n % 256, n / 256 % 256, n / 65536 % 256, n / 16777216 % 256]

/-- The column-reading loop shared by `_handle_result`,
`_handle_binary_result` and `cmd_stmt_prepare`: `n` packets received,
each parsed as a column definition. -/
def readColumns : Nat → DriverM (List ColumnInfo)
  | 0 => dPure []
  | n + 1 => do
      let p ← recvM
      let rest ← readColumns n
      pure (parse_column p :: rest)

/-- One text-protocol row: a length-encoded string per column (`none` =
SQL NULL). -/
abbrev TextRow := List (Option (List Nat))

/-- Modelled from the spec: one length-encoded string (spec glossary),
as consumed by upstream `utils.read_lc_string_list`. -/
def readLcStr (data : List Nat) : Option (Option (List Nat) × List Nat) :=
  match readLcInt data with
  | some (rest, some n) =>
      if n ≤ rest.length then some (some (rest.take n), rest.drop n) else none
  | some (rest, none) => some (none, rest)
  | none => none

/-- Modelled from the spec: upstream `utils.read_lc_string_list` — split
a row payload into its length-encoded strings (fuel = input length; each
string consumes at least one byte). -/
def readLcStringListAux : Nat → List Nat → Option TextRow
  | _, [] => some []
  | 0, _ :: _ => none
  | fuel + 1, data =>
      match readLcStr data with
      | none => none
      | some (s, rest) => (readLcStringListAux fuel rest).map (s :: ·)

def read_lc_string_list (data : List Nat) : Option TextRow :=
  readLcStringListAux data.length data

/-- What `_handle_result` returns: the OK dict, the EOF dict, or the
`{'columns': ..., 'eof': ...}` result-set header dict. -/
inductive ResultInfo where
  | ok (o : OkInfo)
  | eof (e : EofInfo)
  | resultSet (columns : List ColumnInfo) (eof : EofInfo)
deriving Repr, DecidableEq

/-- `AioMySQLConnection._send_cmd` (connection.py lines 218-250): raise
the internal unread-result error before anything is sent; otherwise
frame `packet or argument` behind the 1-byte command code, send it, and
receive one response packet unless `expect_response` is false.  The
`packet_number` only parameterises the framing layer. -/
def sendCmd (command : Nat) (argument : List Nat) (_packetNumber : Nat)
    (packet : Option (List Nat)) (expectResponse : Bool) :
    DriverM (Option (List Nat)) := do
  let st ← getState
  if st.unreadResult then
    throwD .internalUnreadResult
  else do
    let payload := match packet with
      | some p => if p.isEmpty then argument else p
      | none => argument
    sendM (make_command command payload)
    if expectResponse then do
      let p ← recvM
      pure (some p)
    else
      pure none

/-- `AioMySQLConnection._send_data` (connection.py lines 252-285): raise
the internal unread-result error first; then send the file's chunks as
is, optionally follow with an empty packet, and receive one response.
The file-like object is modelled by its chunk list. -/
def sendData (chunks : List (List Nat)) (sendEmptyPacket : Bool) :
    DriverM (List Nat) := do
  let st ← getState
  if st.unreadResult then
    throwD .internalUnreadResult
  else do
    chunks.forM sendM
    if sendEmptyPacket then sendM []
    recvM

/-- `AioMySQLConnection._handle_load_data_infile` (connection.py lines
287-304): open the named local file — on failure send an empty packet to
cancel and raise — then stream it via `_send_data` and handle the final
OK.  (The source composes `_handle_ok(_send_data(...))`; the intended
sequential composition is modelled.) -/
def handleLoadDataInfile (filename : List Nat) : DriverM OkInfo := do
  let st ← getState
  match List.lookup filename st.files with
  | none => do
      sendM []
      throwD (.interfaceFileNotRead filename)
  | some chunks => do
      let p ← sendData chunks true
      handleOk p

/-- `AioMySQLConnection._handle_result` (connection.py lines 306-343):
the first-byte dispatch of `handleResultDispatch`, with the column-count
path reading `column_count` column-definition packets and one EOF packet
and then setting `unread_result`. -/
def handleResult (packet : List Nat) : DriverM ResultInfo := do
  if packet.length < 4 then
    throwD .interfaceEmptyResponse
  else
    match packet[4]? with
    | none => throwD .indexError
    | some b =>
        if b = 0 then do
          let o ← handleOk packet
          pure (.ok o)
        else if b = 251 then do
          let o ← handleLoadDataInfile (packet.drop 5)
          pure (.ok o)
        else if b = 254 then do
          let e ← handleEof packet
          pure (.eof e)
        else if b = 255 then
          throwD (.serverError packet)
        else
          match parse_column_count packet with
          | none => throwD .interfaceIllegalResultSet
          | some 0 => throwD .interfaceIllegalResultSet
          | some n => do
              let cols ← readColumns n
              let eofPkt ← recvM
              let e ← handleEof eofPkt
              modifyState fun s => { s with unreadResult := true }
              pure (.resultSet cols e)

/-- `AioMySQLConnection.cmd_query` (connection.py lines 397-421). -/
def cmd_query (query : List Nat) : DriverM ResultInfo := do
  let p ← sendCmd ServerCmd.QUERY query 0 none true
  let result ← handleResult (p.getD [])
  let st ← getState
  if st.haveNextResult then
    throwD .interfaceUseCmdQueryIter
  else
    pure result

/-- `AioMySQLConnection.cmd_query_many` (connection.py lines 431-457):
like `cmd_query` but returning the first result without the
multi-statement guard. -/
def cmd_query_many (statements : List Nat) : DriverM ResultInfo := do
  let p ← sendCmd ServerCmd.QUERY statements 0 none true
  handleResult (p.getD [])

/-- `AioMySQLConnection.cmd_init_db` (connection.py lines 385-395). -/
def cmd_init_db (database : List Nat) : DriverM OkInfo := do
  let p ← sendCmd ServerCmd.INIT_DB database 0 none true
  handleOk (p.getD [])

/-- `AioMySQLConnection.cmd_refresh` (connection.py lines 459-474). -/
def cmd_refresh (options : Nat) : DriverM OkInfo := do
  let p ← sendCmd ServerCmd.REFRESH (int4store options) 0 none true
  handleOk (p.getD [])

/-- `AioMySQLConnection.cmd_quit` (connection.py lines 476-491): check
the unread-result flag, then send the QUIT packet and return it without
expecting a response. -/
def cmd_quit : DriverM (List Nat) := do
  let st ← getState
  if st.unreadResult then
    throwD .internalUnreadResult
  else do
    let pkt := make_command ServerCmd.QUIT []
    sendM pkt
    pure pkt

/-- Modelled from the spec: the valid shutdown type codes of the
upstream `constants.ShutdownType` (`get_info` succeeds exactly on the
enumerated codes) and its default. -/
def isValidShutdownType (t : Nat) : Bool :=
  [0, 1, 2, 8, 16, 17, 254, 255].contains t

def SHUTDOWN_DEFAULT : Nat := 0

/-- `AioMySQLConnection.cmd_shutdown` (connection.py lines 493-511): an
explicitly supplied shutdown type is validated *before* the command is
sent (and hence before `_send_cmd`'s unread-result check). -/
def cmd_shutdown (shutdownType : Option Nat) : DriverM EofInfo := do
  match shutdownType with
  | some t =>
      if isValidShutdownType t then do
        let p ← sendCmd ServerCmd.SHUTDOWN [t] 0 none true
        handleEof (p.getD [])
      else
        throwD .interfaceInvalidShutdown
  | none => do
      let p ← sendCmd ServerCmd.SHUTDOWN [SHUTDOWN_DEFAULT] 0 none true
      handleEof (p.getD [])

/-- The statistics reply.  Modelled from the spec: parsing is the
external codec's `parse_statistics`, opaque here, so the raw packet is
retained. -/
structure StatsInfo where
  raw : List Nat
deriving Repr, DecidableEq

def parse_statistics (packet : List Nat) : StatsInfo := ⟨packet⟩

/-- `AioMySQLConnection.cmd_statistics` (connection.py lines 513-528):
check the unread-result flag, send STATISTICS, parse the reply. -/
def cmd_statistics : DriverM StatsInfo := do
  let st ← getState
  if st.unreadResult then
    throwD .internalUnreadResult
  else do
    sendM (make_command ServerCmd.STATISTICS [])
    let p ← recvM
    pure (parse_statistics p)

/-- `AioMySQLConnection.cmd_process_kill` (connection.py lines 530-540). -/
def cmd_process_kill (mysqlPid : Nat) : DriverM OkInfo := do
  let p ← sendCmd ServerCmd.PROCESS_KILL (int4store mysqlPid) 0 none true
  handleOk (p.getD [])

/-- `AioMySQLConnection.cmd_debug` (connection.py lines 542-553). -/
def cmd_debug : DriverM EofInfo := do
  let p ← sendCmd ServerCmd.DEBUG [] 0 none true
  handleEof (p.getD [])

/-- `AioMySQLConnection.cmd_ping` (connection.py lines 555-565). -/
def cmd_ping : DriverM OkInfo := do
  let p ← sendCmd ServerCmd.PING [] 0 none true
  handleOk (p.getD [])

/-- Modelled from the spec: upstream `parse_auth_switch_request` — the
plugin name is the nul-terminated string after the 0xFE byte, the rest
is the plugin-specific data (spec section 4.3). -/
def parse_auth_switch_request (packet : List Nat) : List Nat × List Nat :=
  let rest := packet.drop 5
  (rest.takeWhile (· ≠ 0), (rest.dropWhile (· ≠ 0)).drop 1)

/-- Modelled from the spec: the external authentication-plugin resolver
(spec section 6) — given the plugin name, seed data and password it
computes the wire response; the connection layer treats it as opaque, so
it is modelled as an injective packaging of its inputs. -/
def authPluginResponse (plugin authData password : List Nat) : List Nat :=
  plugin ++ 0 :: authData ++ 0 :: password

/-- Modelled from the spec: upstream `parse_auth_more_data` — the data
after the 0x01 status byte. -/
def parse_auth_more_data (packet : List Nat) : List Nat := packet.drop 5

/-- `AioMySQLConnection._auth_switch_request` (connection.py lines
131-162), driven by `authSwitchDispatch`'s classification. -/
def authSwitchRequest (password : List Nat) :
    DriverM (Option OkInfo) := do
  let packet ← recvM
  match packet[4]? with
  | none => throwD .indexError
  | some b =>
      if b = 254 ∧ packet.length = 5 then
        throwD .notSupported
      else if b = 254 then do
        let pr := parse_auth_switch_request packet
        let response := authPluginResponse pr.1 pr.2 password
        if response = [0] then sendM [] else sendM response
        let packet2 ← recvM
        match packet2[4]? with
        | none => throwD .indexError
        | some b2 =>
            if b2 ≠ 1 then do
              let o ← handleOk packet2
              pure (some o)
            else do
              let _ := parse_auth_more_data packet2
              pure none
      else if b = 255 then
        throwD (.serverError packet)
      else
        pure none

/-- Modelled from the spec: the upstream codec's `make_change_user`
handshake-response builder (spec section 4.2): command code, username
(nul-terminated), password, database (nul-terminated), charset. -/
def make_change_user (username password database : List Nat)
    (charset : Nat) : List Nat :=
  ServerCmd.CHANGE_USER ::
    username ++ 0 :: password ++ 0 :: database ++ 0 ::
    [charset % 256, charset / 256 % 256]

/-- `ClientFlag.CONNECT_WITH_DB` from the upstream constants. -/
def CONNECT_WITH_DB : Nat := 8

/-- `AioMySQLConnection.cmd_change_user` (connection.py lines 567-605):
check the unread-result flag, refuse under compression, send the
change-user packet, run the auth-switch exchange, then possibly select
the database and record the new charset (`_post_connection` bookkeeping
is out of scope for the control state). -/
def cmd_change_user (username password database : List Nat)
    (charset : Nat) : DriverM (Option OkInfo) := do
  let st ← getState
  if st.unreadResult then
    throwD .internalUnreadResult
  else if st.compress then
    throwD .notSupported
  else do
    sendM (make_change_user username password database charset)
    let okPacket ← authSwitchRequest password
    let st2 ← getState
    if st2.clientFlags &&& CONNECT_WITH_DB == 0 && !database.isEmpty then do
      let _ ← cmd_init_db database
      modifyState fun s => { s with charsetId := charset }
      pure okPacket
    else do
      modifyState fun s => { s with charsetId := charset }
      pure okPacket

/-- A binary-protocol row.  Modelled from the spec: decoding is the
external type-converter's `_parse_binary_values`, opaque here, so the
raw value bytes are retained. -/
structure BinaryRow where
  raw : List Nat
deriving Repr, DecidableEq

def parseBinaryValues (_columns : List ColumnInfo) (data : List Nat) :
    BinaryRow := ⟨data⟩

/-- The inner `while packet.startswith(b'\xff\xff\xff')` loop of
`AioMySQLProtocol.read_text_result` (protocol.py lines 59-61): keep
receiving continuation packets, collecting their payloads. -/
def gatherContinuation : Nat → List (List Nat) →
    DriverM (List (List Nat) × List Nat)
  | 0, _ => throwD .streamEnded
  | fuel + 1, datas => do
      let packet ← recvM
      if packet.take 3 = [255, 255, 255] then
        gatherContinuation fuel (datas ++ [packet.drop 4])
      else
        pure (datas, packet)

/-- `AioMySQLProtocol.read_text_result` (protocol.py lines 37-76), the
row loop from iteration `i` on: stop at `i == count` or after an EOF
packet; a packet opening with `b'\xff\xff\xff'` starts a multi-packet
row whose pieces are joined before length-encoded splitting.  `fuel`
bounds the packets consumed (the caller supplies the inbox length, and
`recvM` fails on an exhausted inbox regardless). -/
def readTextRows : Nat → Option Nat → Nat →
    DriverM (List TextRow × Option EofInfo)
  | 0, _, _ => throwD .streamEnded
  | fuel + 1, count, i => do
      if count == some i then
        pure ([], none)
      else do
        let packet ← recvM
        if packet.take 3 = [255, 255, 255] then do
          let dl ← gatherContinuation fuel [packet.drop 4]
          match dl.2[4]? with
          | none => throwD .indexError
          | some b =>
              if b = 254 then
                match parse_eof dl.2 with
                | none => throwD .parseError
                | some e =>
                    match read_lc_string_list dl.1.flatten with
                    | none => throwD .parseError
                    | some _ => pure ([], some e)
              else
                match read_lc_string_list (dl.1 ++ [dl.2.drop 4]).flatten with
                | none => throwD .parseError
                | some row => do
                    let rest ← readTextRows fuel count (i + 1)
                    pure (row :: rest.1, rest.2)
        else
          match packet[4]? with
          | none => throwD .indexError
          | some b =>
              if b = 254 then
                match parse_eof packet with
                | none => throwD .parseError
                | some e => pure ([], some e)
              else
                match read_lc_string_list (packet.drop 4) with
                | none => throwD .parseError
                | some row => do
                    let rest ← readTextRows fuel count (i + 1)
                    pure (row :: rest.1, rest.2)

/-- `AioMySQLProtocol.read_binary_result` (protocol.py lines 78-103)
from iteration `i` on.  `values` persists across iterations exactly as
the Python local does: a packet that is neither EOF nor a 0x00 row
leaves it unchanged (and a stale non-`None` value is appended again). -/
def readBinaryRows (columns : List ColumnInfo) :
    Nat → Option Nat → Nat → Option BinaryRow →
    DriverM (List BinaryRow × Option EofInfo)
  | 0, _, _, _ => throwD .streamEnded
  | fuel + 1, count, i, values => do
      if count == some i then
        pure ([], none)
      else do
        let packet ← recvM
        match packet[4]? with
        | none => throwD .indexError
        | some b =>
            if b = 254 then
              match parse_eof packet with
              | none => throwD .parseError
              | some e => pure ([], some e)
            else
              let values2 :=
                if b = 0 then some (parseBinaryValues columns (packet.drop 5))
                else values
              match values2 with
              | some v => do
                  let rest ← readBinaryRows columns fuel count (i + 1) values2
                  pure (v :: rest.1, rest.2)
              | none => readBinaryRows columns fuel count (i + 1) values2

/-- The two row shapes `get_rows` can return. -/
inductive RowsData where
  | text (rows : List TextRow)
  | binary (rows : List BinaryRow)
deriving Repr, DecidableEq

/-- `AioMySQLConnection.get_rows` (connection.py lines 345-367): the
fetch operation *requires* `unread_result`, raising the internal
"No result set available." error otherwise; after the reader returns an
EOF the server status is applied and `unread_result` is cleared. -/
def get_rows (binary : Bool) (columns : List ColumnInfo)
    (count : Option Nat) : DriverM (RowsData × Option EofInfo) := do
  let st ← getState
  if ¬ st.unreadResult then
    throwD .internalNoResultSet
  else do
    let fuel := st.inbox.length + 1
    if binary then do
      let re ← readBinaryRows columns fuel count 0 none
      match re.2 with
      | some e => do
          handleServerStatus e.statusFlag
          modifyState fun s => { s with unreadResult := false }
          pure (.binary re.1, some e)
      | none => pure (.binary re.1, none)
    else do
      let re ← readTextRows fuel count 0
      match re.2 with
      | some e => do
          handleServerStatus e.statusFlag
          modifyState fun s => { s with unreadResult := false }
          pure (.text re.1, some e)
      | none => pure (.text re.1, none)

/-- `AioMySQLConnection.get_row` (connection.py lines 369-383). -/
def get_row (binary : Bool) (columns : List ColumnInfo) :
    DriverM (Option (TextRow ⊕ BinaryRow) × Option EofInfo) := do
  let re ← get_rows binary columns (some 1)
  match re.1 with
  | .text (r :: _) => pure (some (.inl r), re.2)
  | .binary (r :: _) => pure (some (.inr r), re.2)
  | _ => pure (none, re.2)

/-- The decoded prepared-statement OK reply (spec section 3): statement
id and the two descriptor counts. -/
structure PrepareOkInfo where
  statementId : Nat
  numColumns : Nat
  numParams : Nat
  warningCount : Nat
deriving Repr, DecidableEq

/-- Modelled from the spec: upstream `parse_binary_prepare_ok` — after
the 0x00 byte: 4-byte statement id, 2-byte column count, 2-byte
parameter count, filler, 2-byte warning count. -/
def parse_binary_prepare_ok (packet : List Nat) : Option PrepareOkInfo :=
  match packet.drop 4 with
  | 0 :: s0 :: s1 :: s2 :: s3 :: c0 :: c1 :: p0 :: p1 :: _ :: w0 :: w1 :: _ =>
      some ⟨s0 + 256 * s1 + 65536 * s2 + 16777216 * s3,
        c0 + 256 * c1, p0 + 256 * p1, w0 + 256 * w1⟩
  | _ => none

/-- Modelled from the spec: upstream `MySQLConnection._handle_binary_ok`
— a 0x00 packet parses as the prepare-OK reply, 0xFF raises, anything
else is an interface error. -/
def handleBinaryOk (packet : List Nat) : DriverM PrepareOkInfo :=
  match packet[4]? with
  | none => throwD .indexError
  | some b =>
      if b = 0 then
        match parse_binary_prepare_ok packet with
        | some r => dPure r
        | none => throwD .parseError
      else if b = 255 then throwD (.serverError packet)
      else throwD .interfaceExpectedOk

/-- `AioMySQLConnection.cmd_stmt_prepare` (connection.py lines
970-1000): send PREPARE, decode the binary OK, then read the parameter
descriptors (EOF-terminated, skipped when the count is zero) and the
column descriptors likewise. -/
def cmd_stmt_prepare (statement : List Nat) :
    DriverM (PrepareOkInfo × List ColumnInfo × List ColumnInfo) := do
  let p ← sendCmd ServerCmd.STMT_PREPARE statement 0 none true
  let result ← handleBinaryOk (p.getD [])
  let parameters ←
    if 0 < result.numParams then do
      let ps ← readColumns result.numParams
      let eofPkt ← recvM
      let _ ← handleEof eofPkt
      pure ps
    else pure []
  let columns ←
    if 0 < result.numColumns then do
      let cs ← readColumns result.numColumns
      let eofPkt ← recvM
      let _ ← handleEof eofPkt
      pure cs
    else pure []
  pure (result, columns, parameters)

/-- One bound parameter of `cmd_stmt_execute`: a plain value, or a
file-like object streamed beforehand via `cmd_stmt_send_long_data`
(modelled by its chunk list). -/
inductive StmtParam where
  | value (v : List Nat)
  | fileData (chunks : List (List Nat))
deriving Repr, DecidableEq

/-- Modelled from the spec: upstream `utils.int2store`. -/
def int2store (n : Nat) : List Nat := [n % 256, n / 256 % 256]

/-- Modelled from the spec: upstream
`MySQLProtocol._prepare_stmt_send_long_data` — statement id, parameter
id, then the chunk. -/
def prepareStmtSendLongData (statementId paramId : Nat)
    (buf : List Nat) : List Nat :=
  int4store statementId ++ int2store paramId ++ buf

/-- Modelled from the spec: the upstream codec's `make_stmt_execute`
(spec section 4.2) — statement id and flags; the null bitmap and
binary-encoded parameter values are the external codec's concern and are
packaged as is. -/
def make_stmt_execute (statementId : Nat) (data : List StmtParam)
    (flags : Nat) : List Nat :=
  int4store statementId ++ [flags] ++
    (data.map fun p =>
      match p with
      | .value v => v
      | .fileData _ => []).flatten

/-- `AioMySQLConnection.cmd_stmt_send_long_data` (connection.py lines
1038-1072): one fire-and-forget `_send_cmd` per chunk (so an empty file
sends nothing); returns the total bytes sent. -/
def cmd_stmt_send_long_data (statementId paramId : Nat)
    (chunks : List (List Nat)) : DriverM Nat :=
  chunks.foldlM
    (fun total buf => do
      let _ ← sendCmd ServerCmd.STMT_SEND_LONG_DATA [] 0
        (some (prepareStmtSendLongData statementId paramId buf)) false
      pure (total + buf.length))
    0

/-- The outcome of `_handle_binary_result`. -/
inductive BinaryResultInfo where
  | ok (o : OkInfo)
  | eof (e : EofInfo)
  | resultSet (columnCount : Nat) (columns : List ColumnInfo) (eof : EofInfo)
deriving Repr, DecidableEq

/-- `AioMySQLConnection._handle_binary_result` (connection.py lines
934-968): like `_handle_result` but without the LOAD DATA INFILE branch
and without setting `unread_result`. -/
def handleBinaryResult (packet : List Nat) : DriverM BinaryResultInfo := do
  if packet.length < 4 then
    throwD .interfaceEmptyResponse
  else
    match packet[4]? with
    | none => throwD .indexError
    | some b =>
        if b = 0 then do
          let o ← handleOk packet
          pure (.ok o)
        else if b = 254 then do
          let e ← handleEof packet
          pure (.eof e)
        else if b = 255 then
          throwD (.serverError packet)
        else
          match parse_column_count packet with
          | none => throwD .interfaceIllegalResultSet
          | some 0 => throwD .interfaceIllegalResultSet
          | some n => do
              let cols ← readColumns n
              let eofPkt ← recvM
              let e ← handleEof eofPkt
              pure (.resultSet n cols e)

/-- The long-data loop of `cmd_stmt_execute`: every file-like parameter
is streamed via `cmd_stmt_send_long_data` before the execute packet. -/
def stmtLongDataLoop (statementId : Nat)
    (data : List (Nat × StmtParam)) : DriverM Unit :=
  data.forM fun pe =>
    match pe.2 with
    | .fileData chunks => do
        let _ ← cmd_stmt_send_long_data statementId pe.1 chunks
        pure ()
    | .value _ => pure ()

/-- `AioMySQLConnection.cmd_stmt_execute` (connection.py lines
1002-1025): stream every file-like parameter's chunks first (each inner
send goes through `_send_cmd` and so through its unread-result check),
then send the execute packet and decode the binary result. -/
def cmd_stmt_execute (statementId : Nat) (data : List StmtParam)
    (flags : Nat) : DriverM BinaryResultInfo := do
  stmtLongDataLoop statementId data.enum
  let execPacket := make_stmt_execute statementId data flags
  let p ← sendCmd ServerCmd.STMT_EXECUTE [] 0 (some execPacket) true
  handleBinaryResult (p.getD [])

/-- `AioMySQLConnection.cmd_stmt_close` (connection.py lines 1027-1036):
fire-and-forget. -/
def cmd_stmt_close (statementId : Nat) : DriverM Unit := do
  let _ ← sendCmd ServerCmd.STMT_CLOSE (int4store statementId) 0 none false
  pure ()

/-- `AioMySQLConnection.cmd_stmt_reset` (connection.py lines 1074-1082). -/
def cmd_stmt_reset (statementId : Nat) : DriverM OkInfo := do
  let p ← sendCmd ServerCmd.STMT_RESET (int4store statementId) 0 none true
  handleOk (p.getD [])

/-- The server-version comparison `self._server_version < (5, 7, 3)`. -/
def versionLt (v w : Nat × Nat × Nat) : Bool :=
  v.1 < w.1 || (v.1 == w.1 && (v.2.1 < w.2.1 ||
    (v.2.1 == w.2.1 && v.2.2 < w.2.2)))

/-- `AioMySQLConnection.cmd_reset_connection` (connection.py lines
1084-1099): the server-version gate comes *before* `_send_cmd` (and
hence before the unread-result check); `_post_connection` bookkeeping is
out of scope for the control state. -/
def cmd_reset_connection : DriverM Unit := do
  let st ← getState
  if versionLt st.serverVersion (5, 7, 3) then
    throwD .notSupported
  else do
    let p ← sendCmd ServerCmd.RESET_CONNECTION [] 0 none true
    let _ ← handleOk (p.getD [])
    pure ()

/-- `AioMySQLConnection.next_result` (connection.py lines 423-429): a
no-op `none` when no further result is pending; otherwise the
unread-result check guards the next `_handle_result`. -/
def next_result : DriverM (Option ResultInfo) := do
  let st ← getState
  if ¬ st.haveNextResult then
    pure none
  else if st.unreadResult then
    throwD .internalUnreadResult
  else do
    let p ← recvM
    let r ← handleResult p
    pure (some r)

/-! ### The unread-result guard (claim C2) -/

theorem bind_def {α β : Type} (m : DriverM α) (f : α → DriverM β) :
    m >>= f = dBind m f := rfl

theorem pure_def {α : Type} (a : α) : (pure a : DriverM α) = dPure a := rfl

theorem dBind_error {α β : Type} (m : DriverM α) (f : α → DriverM β)
    (st st1 : ConnState) (e : DriverError) (h : m st = (st1, .error e)) :
    dBind m f st = (st1, .error e) := by
  simp [dBind, h]

theorem dBind_ok {α β : Type} (m : DriverM α) (f : α → DriverM β)
    (st st1 : ConnState) (a : α) (h : m st = (st1, .ok a)) :
    dBind m f st = f a st1 := by
  simp [dBind, h]

theorem dBind_dPure {α β : Type} (a : α) (f : α → DriverM β)
    (st : ConnState) : dBind (dPure a) f st = f a st := rfl

/-- `_send_cmd` raises the internal unread-result error before sending
or receiving anything whenever the flag is set. -/
theorem sendCmd_unread (c : Nat) (a : List Nat) (pn : Nat)
    (pk : Option (List Nat)) (er : Bool) (st : ConnState)
    (h : st.unreadResult = true) :
    sendCmd c a pn pk er st = (st, .error .internalUnreadResult) := by
  simp [sendCmd, bind_def, dBind, getState, throwD, h]

theorem cmd_stmt_send_long_data_unread (sid pid : Nat)
    (chunks : List (List Nat)) (st : ConnState)
    (h : st.unreadResult = true) :
    (chunks = [] → cmd_stmt_send_long_data sid pid chunks st = (st, .ok 0)) ∧
    (chunks ≠ [] →
      cmd_stmt_send_long_data sid pid chunks st =
        (st, .error .internalUnreadResult)) := by
  constructor
  · rintro rfl
    simp [cmd_stmt_send_long_data, pure_def, dPure]
  · intro hne
    match chunks with
    | [] => exact absurd rfl hne
    | c :: cs =>
        simp only [cmd_stmt_send_long_data, List.foldlM_cons, bind_def,
          pure_def]
        exact dBind_error _ _ _ _ _
          (dBind_error _ _ _ _ _ (sendCmd_unread _ _ _ _ _ st h))

theorem stmtLongDataLoop_unread (sid : Nat)
    (data : List (Nat × StmtParam)) (st : ConnState)
    (h : st.unreadResult = true) :
    stmtLongDataLoop sid data st = (st, .ok ()) ∨
    stmtLongDataLoop sid data st = (st, .error .internalUnreadResult) := by
  induction data with
  | nil =>
      left
      simp [stmtLongDataLoop, List.forM, pure_def, dPure]
  | cons pe rest ih =>
      rcases pe with ⟨pid, v | chunks⟩
      · -- a plain value parameter: the loop body is `pure ()`
        simp only [stmtLongDataLoop, List.forM, bind_def, pure_def] at ih ⊢
        rw [dBind_dPure]
        exact ih
      · rcases chunks with _ | ⟨c, cs⟩
        · -- an empty file: no packet is sent, the loop continues
          simp only [stmtLongDataLoop, List.forM, bind_def, pure_def] at ih ⊢
          have hempty : dBind (cmd_stmt_send_long_data sid pid [])
              (fun _ => dPure ()) st = (st, Except.ok ()) := by
            rw [dBind_ok _ _ st st 0
              ((cmd_stmt_send_long_data_unread sid pid [] st h).1 rfl)]
            rfl
          rw [dBind_ok _ _ st st () hempty]
          exact ih
        · -- a nonempty file: the first chunk's `_send_cmd` raises
          right
          simp only [stmtLongDataLoop, List.forM, bind_def, pure_def]
          exact dBind_error _ _ _ _ _
            (dBind_error _ _ _ _ _
              ((cmd_stmt_send_long_data_unread sid pid (c :: cs) st h).2
                (by simp)))

/-- C2 (amended): with `unread_result` set, every command operation
raises the internal "Unread result found." error with the connection
state untouched (in particular nothing is sent), *except* that two
commands run an unrelated validation first: `cmd_shutdown` rejects an
invalid shutdown type and `cmd_reset_connection` rejects servers older
than 5.7.3 (each still sending nothing); an empty file-like object given
to `cmd_stmt_send_long_data` sends nothing and returns 0 without
raising.  The fetch operations instead require `unread_result` and raise
the internal "No result set available." error when it is clear. -/
theorem unread_result_guard (st stF : ConnState)
    (h : st.unreadResult = true) (hF : stF.unreadResult = false) :
    (∀ c a pn pk er, sendCmd c a pn pk er st = (st, .error .internalUnreadResult)) ∧
    (∀ chunks b, sendData chunks b st = (st, .error .internalUnreadResult)) ∧
    (∀ q, cmd_query q st = (st, .error .internalUnreadResult)) ∧
    (∀ s, cmd_query_many s st = (st, .error .internalUnreadResult)) ∧
    (∀ d, cmd_init_db d st = (st, .error .internalUnreadResult)) ∧
    (∀ o, cmd_refresh o st = (st, .error .internalUnreadResult)) ∧
    cmd_quit st = (st, .error .internalUnreadResult) ∧
    (∀ t, isValidShutdownType t = true →
      cmd_shutdown (some t) st = (st, .error .internalUnreadResult)) ∧
    cmd_shutdown none st = (st, .error .internalUnreadResult) ∧
    cmd_statistics st = (st, .error .internalUnreadResult) ∧
    (∀ pid, cmd_process_kill pid st = (st, .error .internalUnreadResult)) ∧
    cmd_debug st = (st, .error .internalUnreadResult) ∧
    cmd_ping st = (st, .error .internalUnreadResult) ∧
    (∀ u p d c, cmd_change_user u p d c st = (st, .error .internalUnreadResult)) ∧
    (∀ s, cmd_stmt_prepare s st = (st, .error .internalUnreadResult)) ∧
    (∀ sid data flags,
      cmd_stmt_execute sid data flags st = (st, .error .internalUnreadResult)) ∧
    (∀ sid, cmd_stmt_close sid st = (st, .error .internalUnreadResult)) ∧
    (∀ sid pid chunks, chunks ≠ [] →
      cmd_stmt_send_long_data sid pid chunks st =
        (st, .error .internalUnreadResult)) ∧
    (∀ sid, cmd_stmt_reset sid st = (st, .error .internalUnreadResult)) ∧
    (versionLt st.serverVersion (5, 7, 3) = false →
      cmd_reset_connection st = (st, .error .internalUnreadResult)) ∧
    (∀ b cols cnt, get_rows b cols cnt stF = (stF, .error .internalNoResultSet)) ∧
    (∀ b cols, get_row b cols stF = (stF, .error .internalNoResultSet)) := by
  have hrows : ∀ b cols cnt,
      get_rows b cols cnt stF = (stF, .error .internalNoResultSet) := by
    intro b cols cnt
    simp [get_rows, bind_def, dBind, getState, throwD, hF]
  refine ⟨fun c a pn pk er => sendCmd_unread c a pn pk er st h,
    ?_, ?_, ?_, ?_, ?_, ?_, ?_, ?_, ?_, ?_, ?_, ?_, ?_, ?_, ?_, ?_, ?_, ?_, ?_,
    hrows, ?_⟩
  · intro chunks b
    simp [sendData, bind_def, dBind, getState, throwD, h]
  · intro q
    simp only [cmd_query, bind_def]
    exact dBind_error _ _ _ _ _ (sendCmd_unread _ _ _ _ _ st h)
  · intro s
    simp only [cmd_query_many, bind_def]
    exact dBind_error _ _ _ _ _ (sendCmd_unread _ _ _ _ _ st h)
  · intro d
    simp only [cmd_init_db, bind_def]
    exact dBind_error _ _ _ _ _ (sendCmd_unread _ _ _ _ _ st h)
  · intro o
    simp only [cmd_refresh, bind_def]
    exact dBind_error _ _ _ _ _ (sendCmd_unread _ _ _ _ _ st h)
  · simp [cmd_quit, bind_def, dBind, getState, throwD, h]
  · intro t hv
    simp only [cmd_shutdown, hv, if_true, bind_def]
    exact dBind_error _ _ _ _ _ (sendCmd_unread _ _ _ _ _ st h)
  · simp only [cmd_shutdown, bind_def]
    exact dBind_error _ _ _ _ _ (sendCmd_unread _ _ _ _ _ st h)
  · simp [cmd_statistics, bind_def, dBind, getState, throwD, h]
  · intro pid
    simp only [cmd_process_kill, bind_def]
    exact dBind_error _ _ _ _ _ (sendCmd_unread _ _ _ _ _ st h)
  · simp only [cmd_debug, bind_def]
    exact dBind_error _ _ _ _ _ (sendCmd_unread _ _ _ _ _ st h)
  · simp only [cmd_ping, bind_def]
    exact dBind_error _ _ _ _ _ (sendCmd_unread _ _ _ _ _ st h)
  · intro u p d c
    simp [cmd_change_user, bind_def, dBind, getState, throwD, h]
  · intro s
    simp only [cmd_stmt_prepare, bind_def]
    exact dBind_error _ _ _ _ _ (sendCmd_unread _ _ _ _ _ st h)
  · intro sid data flags
    simp only [cmd_stmt_execute, bind_def]
    rcases stmtLongDataLoop_unread sid data.enum st h with hl | hl
    · rw [dBind_ok _ _ _ _ _ hl]
      exact dBind_error _ _ _ _ _ (sendCmd_unread _ _ _ _ _ st h)
    · exact dBind_error _ _ _ _ _ hl
  · intro sid
    simp only [cmd_stmt_close, bind_def]
    exact dBind_error _ _ _ _ _ (sendCmd_unread _ _ _ _ _ st h)
  · intro sid pid chunks hne
    exact (cmd_stmt_send_long_data_unread sid pid chunks st h).2 hne
  · intro sid
    simp only [cmd_stmt_reset, bind_def]
    exact dBind_error _ _ _ _ _ (sendCmd_unread _ _ _ _ _ st h)
  · intro hver
    simp only [cmd_reset_connection, bind_def]
    rw [dBind_ok _ _ _ _ _ (by simp [getState] : getState st = (st, .ok st))]
    simp only [hver, Bool.false_eq_true, if_false]
    exact dBind_error _ _ _ _ _ (sendCmd_unread _ _ _ _ _ st h)
  · intro b cols
    simp only [get_row, bind_def]
    exact dBind_error _ _ _ _ _ (hrows b cols (some 1))

/-- A connection with an unread result pending, on a 5.7.3 server. -/
def c2UnreadState : ConnState :=
  ⟨true, false, false, false, 0, 33, (5, 7, 3), [], [], []⟩

/-- A connection with no unread result pending. -/
def c2ReadyState : ConnState :=
  ⟨false, false, false, false, 0, 33, (5, 7, 3), [], [], []⟩

/-- A connection with an unread result pending, on a 5.7.2 server. -/
def c2OldServerState : ConnState :=
  ⟨true, false, false, false, 0, 33, (5, 7, 2), [], [], []⟩

/-- C2 counterexample: with `unread_result` set, `cmd_reset_connection`
on a pre-5.7.3 server raises `NotSupportedError` — its server-version
gate runs before `_send_cmd`'s unread-result check — and `cmd_shutdown`
with an invalid shutdown type raises the invalid-shutdown
`InterfaceError`; neither is the internal "Unread result found."
error the claim promises for every command. -/
theorem unread_result_guard_counterexample :
    c2OldServerState.unreadResult = true ∧
    cmd_reset_connection c2OldServerState
      = (c2OldServerState, .error .notSupported) ∧
    cmd_shutdown (some 3) c2OldServerState
      = (c2OldServerState, .error .interfaceInvalidShutdown) ∧
    DriverError.notSupported ≠ DriverError.internalUnreadResult ∧
    DriverError.interfaceInvalidShutdown ≠ DriverError.internalUnreadResult :=
  ⟨rfl, rfl, rfl, by decide, by decide⟩

/-- C2 witness: every command evaluated on a concrete unread-result
state raises the internal error with the state unchanged, and the fetch
operations raise "No result set available." on a concrete drained
state. -/
theorem unread_result_guard_witness :
    c2UnreadState.unreadResult = true ∧
    c2ReadyState.unreadResult = false ∧
    sendCmd ServerCmd.QUERY [83] 0 none true c2UnreadState
      = (c2UnreadState, .error .internalUnreadResult) ∧
    sendData [[1, 2]] true c2UnreadState
      = (c2UnreadState, .error .internalUnreadResult) ∧
    cmd_query [83] c2UnreadState
      = (c2UnreadState, .error .internalUnreadResult) ∧
    cmd_query_many [83] c2UnreadState
      = (c2UnreadState, .error .internalUnreadResult) ∧
    cmd_init_db [100] c2UnreadState
      = (c2UnreadState, .error .internalUnreadResult) ∧
    cmd_refresh 1 c2UnreadState
      = (c2UnreadState, .error .internalUnreadResult) ∧
    cmd_quit c2UnreadState
      = (c2UnreadState, .error .internalUnreadResult) ∧
    cmd_shutdown (some 1) c2UnreadState
      = (c2UnreadState, .error .internalUnreadResult) ∧
    cmd_shutdown none c2UnreadState
      = (c2UnreadState, .error .internalUnreadResult) ∧
    cmd_statistics c2UnreadState
      = (c2UnreadState, .error .internalUnreadResult) ∧
    cmd_process_kill 7 c2UnreadState
      = (c2UnreadState, .error .internalUnreadResult) ∧
    cmd_debug c2UnreadState
      = (c2UnreadState, .error .internalUnreadResult) ∧
    cmd_ping c2UnreadState
      = (c2UnreadState, .error .internalUnreadResult) ∧
    cmd_change_user [117] [112] [100] 33 c2UnreadState
      = (c2UnreadState, .error .internalUnreadResult) ∧
    cmd_stmt_prepare [83] c2UnreadState
      = (c2UnreadState, .error .internalUnreadResult) ∧
    cmd_stmt_execute 1 [StmtParam.value [5], StmtParam.fileData [[9]]] 0
        c2UnreadState
      = (c2UnreadState, .error .internalUnreadResult) ∧
    cmd_stmt_close 1 c2UnreadState
      = (c2UnreadState, .error .internalUnreadResult) ∧
    cmd_stmt_send_long_data 1 0 [[9]] c2UnreadState
      = (c2UnreadState, .error .internalUnreadResult) ∧
    cmd_stmt_reset 1 c2UnreadState
      = (c2UnreadState, .error .internalUnreadResult) ∧
    cmd_reset_connection c2UnreadState
      = (c2UnreadState, .error .internalUnreadResult) ∧
    get_rows false [] none c2ReadyState
      = (c2ReadyState, .error .internalNoResultSet) ∧
    get_row false [] c2ReadyState
      = (c2ReadyState, .error .internalNoResultSet) := by
  obtain ⟨h1, h2, h3, h4, h5, h6, h7, h8, h9, h10, h11, h12, h13, h14, h15,
    h16, h17, h18, h19, h20, h21, h22⟩ :=
    unread_result_guard c2UnreadState c2ReadyState rfl rfl
  exact ⟨rfl, rfl, h1 _ _ _ _ _, h2 _ _, h3 _, h4 _, h5 _, h6 _, h7,
    h8 1 (by decide), h9, h10, h11 _, h12, h13, h14 _ _ _ _, h15 _,
    h16 _ _ _, h17 _, h18 1 0 [[9]] (by decide), h19 _, h20 rfl,
    h21 _ _ _, h22 _ _⟩

end MySQLAsync
